import Mathlib

/-!
Verification development for the job-application automation script
(repository pythonJobsApplier, history snapshots under .history/).

The authoritative revision is the newest snapshot,
job_application_automator_20240925103923.py; it is embedded below in
namespace Rev20240925.  The earliest snapshot
job_application_automator_20240920204534.py is embedded in namespace
Rev20240920 where a claim concerns the older revisions (login step,
resume upload).

Modelling conventions for the shallow embedding:
* Machine state S carries the browser (current URL, open window handles,
  focused handle), a chronological event trace, the applied_jobs set
  (as a duplicate-free list), a clock (int(time.time())), and the
  function-local variable original_window of apply_to_job (an Option,
  none while the Python local is unbound).
* Every fallible Selenium call (find_element, WebDriverWait.until,
  click, send_keys) is driven by a field of an environment structure
  whose fields appear in source order: none means the call succeeds,
  some e means it raises exception e.  Clicking the job-title link may
  additionally open a new browser window (ClickRes.ok true).
* Infallible modelling is used for scrollIntoView / execute_script
  scrolling, print, set.add, and driver.save_screenshot (a failing
  save is caught inside capture_screenshot and only omits the file,
  which no claim depends on).
* Python exceptions become constructors of PyExc; sys.exit(1) becomes
  Outcome.exited 1, which except-clauses do not catch.
* Python str.isalnum, str.rstrip and str.strip are modelled for ASCII
  text (alphanumeric means Latin letters and digits).
-/

/-- Exceptions that the script's except-clauses distinguish. -/
inductive PyExc where
  | noSuchElement
  | timeoutExc
  | clickIntercepted
  | notInteractable
  | staleElement
  | webDriverExc
  | unboundLocal
  | keyErr
  | valueErr
  | otherExc
deriving DecidableEq, Repr

/-- Result of running a Python statement: normal value, uncaught
exception, or process exit (sys.exit). -/
inductive Outcome (α : Type) where
  | ok (a : α)
  | exc (e : PyExc)
  | exited (code : Nat)
deriving DecidableEq, Repr

/-- Observable actions of the script, recorded chronologically. -/
inductive Event where
  | browserLaunch
  | loginStep (email pwd : String)
  | navigate (url : String)
  | searchClick
  | filterActivated
  | processCard (idx : Nat)
  | clickTitle (job : String)
  | shadowRootEval (host : String)
  | shadowFind (css : String)
  | clickShadowButton
  | clickNext
  | uploadResume (path : String)
  | clickSubmit (job : String)
  | pauseBetween (d : Int)
  | dirCreate (path : String)
  | screenshotSave (path : String)
  | logWrite
  | navBack
  | quitDriver
deriving DecidableEq, Repr

/-- Browser state: current page URL, the open window handles, and the
handle holding focus. -/
structure BrowserSt where
  url : String
  windows : List Nat
  current : Nat
deriving DecidableEq, Repr

/-- Full machine state threaded through the embedded script. -/
structure S where
  browser : BrowserSt
  events : List Event
  applied : List String
  clock : Nat
  owLocal : Option Nat
deriving DecidableEq, Repr

/-- Append one event to the chronological trace. -/
def emit (e : Event) (s : S) : S :=
  { s with events := s.events ++ [e] }

/-- Advance the clock by n seconds (time.sleep). -/
def tick (n : Nat) (s : S) : S :=
  { s with clock := s.clock + n }

/-- Set the current page URL (driver.get). -/
def setUrl (u : String) (s : S) : S :=
  { s with browser := { s.browser with url := u } }

/-- Run a fallible driver call: on none continue with k, on some e
raise e. -/
def attempt (r : Option PyExc) (s : S) (k : S → S × Outcome Unit) :
    S × Outcome Unit :=
  match r with
  | some e => (s, .exc e)
  | none => k s

/-- Python str.isalnum restricted to ASCII text. -/
def pyIsAlnum (c : Char) : Bool :=
  c.isAlpha || c.isDigit

/-- Python str.rstrip on a character list (drop trailing whitespace). -/
def pyRstrip (l : List Char) : List Char :=
  (l.reverse.dropWhile Char.isWhitespace).reverse

/-- Python str.strip on a string (drop whitespace at both ends). -/
def pyStrip (t : String) : String :=
  ⟨(t.data.dropWhile Char.isWhitespace).reverse.dropWhile Char.isWhitespace |>.reverse⟩

/-- Embeds sanitize_title of the 20240925103923 revision: keep only
alphanumeric characters, spaces and underscores, rstrip the result,
then replace each space by an underscore. -/
def sanitize_title (t : String) : String :=
  ⟨(pyRstrip (t.data.filter fun c => pyIsAlnum c || c == ' ' || c == '_')).map
    fun c => if c == ' ' then '_' else c⟩

/-- Modelled from the spec sentence of claim C8 (for comparison only):
the same function except that trailing underscores are stripped along
with trailing spaces. -/
def sanitize_title_claimC8 (t : String) : String :=
  ⟨((t.data.filter fun c => pyIsAlnum c || c == ' ' || c == '_').reverse.dropWhile
      (fun c => c.isWhitespace || c == '_')).reverse.map
    fun c => if c == ' ' then '_' else c⟩

/-- Substring test helper: does the needle occur in the haystack
(Python operator in on strings)? -/
def hasSubAux (hay needle : List Char) : Bool :=
  needle.isPrefixOf hay ||
    match hay with
    | [] => false
    | _ :: t => hasSubAux t needle

/-- Python operator in on strings. -/
def strHasSub (hay needle : String) : Bool :=
  hasSubAux hay.data needle.data

/-- Digit-string accumulator for parsePyInt. -/
def parseDigitsAux : List Char → Nat → Option Nat
  | [], acc => some acc
  | c :: t, acc =>
      if c.isDigit then parseDigitsAux t (acc * 10 + (c.toNat - 48)) else none

/-- Python int(str) on ASCII text: optional surrounding whitespace,
optional sign, then decimal digits; none models ValueError. -/
def parsePyInt (v : String) : Option Int :=
  match (v.data.dropWhile Char.isWhitespace).reverse.dropWhile Char.isWhitespace |>.reverse with
  | [] => none
  | '-' :: rest =>
      if rest.isEmpty then none else (parseDigitsAux rest 0).map fun n => -(n : Int)
  | '+' :: rest =>
      if rest.isEmpty then none else (parseDigitsAux rest 0).map fun n => (n : Int)
  | rest => (parseDigitsAux rest 0).map fun n => (n : Int)

/-- Value drawn by a successful random.randint a b call (inclusive
bounds), with the randomness source supplied as a natural number r;
only drawn when a is at most b.  The raising call itself is randintE. -/
def randint (a b : Int) (r : Nat) : Int :=
  a + ((r % (b - a + 1).toNat : Nat) : Int)

/-- Python random.randint a b: raises ValueError when b is smaller
than a, otherwise returns a value between a and b inclusive. -/
def randintE (a b : Int) (r : Nat) : Outcome Int :=
  if a ≤ b then .ok (randint a b r) else .exc .valueErr

/-- Outcome of clicking a link: success (possibly opening one new
browser window, as the script anticipates for the job-title link), or
an exception. -/
inductive ClickRes where
  | clickOk (opensWindow : Bool)
  | clickErr (e : PyExc)
deriving DecidableEq, Repr

/-- Fresh window handle, distinct from every open handle. -/
def freshHandle (ws : List Nat) : Nat :=
  ws.foldr max 0 + 1

/-- A click opened a new window: append a fresh handle (focus stays). -/
def openNewWindow (s : S) : S :=
  { s with browser := { s.browser with
      windows := s.browser.windows ++ [freshHandle s.browser.windows] } }

/-- Optionally open a new window after a click. -/
def maybeOpen (b : Bool) (s : S) : S :=
  if b then openNewWindow s else s

/-- Selenium driver.close: remove the focused handle from the open
windows (focus dangles until the next switch, as in Selenium). -/
def closeCurrentWindow (s : S) : S :=
  { s with browser := { s.browser with
      windows := s.browser.windows.erase s.browser.current } }

/-- Selenium driver.switch_to.window. -/
def switchToWindow (h : Nat) (s : S) : S :=
  { s with browser := { s.browser with current := h } }

/-- Run a fallible driver call that records an event on success. -/
def attemptE (r : Option PyExc) (e : Event) (s : S) (k : S → S × Outcome Unit) :
    S × Outcome Unit :=
  match r with
  | some ex => (s, .exc ex)
  | none => k (emit e s)

/-- Python set.add on the applied_jobs set (duplicate-free list). -/
def pySetAdd (jt : String) (l : List String) : List String :=
  if jt ∈ l then l else l ++ [jt]

/-- Membership test of the except-clause catching NoSuchElementException
and TimeoutException. -/
def isNoSuchOrTimeout (e : PyExc) : Bool :=
  e == .noSuchElement || e == .timeoutExc

/-- Membership test of the except-clause catching
ElementClickInterceptedException and ElementNotInteractableException. -/
def isInterceptedOrNI (e : PyExc) : Bool :=
  e == .clickIntercepted || e == .notInteractable

namespace Rev20240925

/-- Embeds create_directory: os.makedirs with exist_ok, recorded as a
directory-creation effect. -/
def create_directory (path : String) (s : S) : S :=
  emit (.dirCreate path) s

/-- Embeds capture_screenshot: create screenshots/SUBFOLDER, then save
screenshot_NAME_TIMESTAMP.png inside it (timestamp is int(time.time()),
here the model clock). -/
def capture_screenshot (name sub : String) (s : S) : S :=
  let s := create_directory ("screenshots/" ++ sub) s
  emit (.screenshotSave ("screenshots/" ++ (sub ++ "/" ++
    ("screenshot_" ++ sanitize_title name ++ "_" ++ toString s.clock ++ ".png")))) s

/-- Embeds log_available_buttons: enumerate the card's buttons (pure
logging, no state effect here) and save a debugging screenshot at
screenshots/missing_easy_apply/screenshot_job_TITLE.png. -/
def log_available_buttons (jt : String) (s : S) : S :=
  emit (.screenshotSave ("screenshots/" ++ ("missing_easy_apply/" ++
    ("screenshot_job_" ++ sanitize_title jt ++ ".png")))) s

/-- URL parameter the filter checks for. -/
def easyParam : String :=
  "filters.easyApply=true"

/-- Search URL the filter navigates to when the parameter is absent. -/
def searchUrl (terms : String) : String :=
  "https://www.dice.com/jobs?q=" ++
    (terms ++ "&pageSize=1000&filters.workplaceTypes=Remote&filters.easyApply=true")

/-- Environment of activate_easy_apply_filter: outcome of the single
explicit wait for the job listings after navigating. -/
structure FilterEnv where
  listingsWait : Option PyExc
deriving DecidableEq, Repr

/-- Try-block body of activate_easy_apply_filter: if the current URL
already carries filters.easyApply=true do nothing, otherwise navigate
to the filtered search URL and wait for the job cards. -/
def activateBody (terms : String) (env : FilterEnv) (s : S) : S × Outcome Unit :=
  if strHasSub s.browser.url easyParam then (s, .ok ())
  else
    let s := setUrl (searchUrl terms) (emit (.navigate (searchUrl terms)) s)
    attempt env.listingsWait s fun s => (s, .ok ())

/-- Embeds activate_easy_apply_filter: on success the filter is active;
on any exception (both except-clauses behave alike up to the screenshot
name) capture a screenshot, quit the driver, and exit(1). -/
def activate_easy_apply_filter (terms : String) (env : FilterEnv) (s : S) :
    S × Outcome Unit :=
  match activateBody terms env s with
  | (s, .ok _) => (emit .filterActivated s, .ok ())
  | (s, .exc e) =>
      let nm := if isNoSuchOrTimeout e then "error_activating_easy_apply_filter"
                else "unexpected_error_easy_apply_filter"
      let s := capture_screenshot nm "filters" s
      (emit .quitDriver s, .exited 1)
  | (s, .exited c) => (s, .exited c)

/-- Environment of one apply_to_job call: one field per fallible driver
call, in source order.  none means the call succeeds. -/
structure AttemptEnv where
  findTitleLink : Option PyExc
  waitTitleClickable : Option PyExc
  titleClick : ClickRes
  jsTitleClick : ClickRes
  waitDetails : Option PyExc
  findApplyWc : Option PyExc
  shadowFind : Option PyExc
  applyClick : Option PyExc
  jsApplyClick : Option PyExc
  waitUrlApply : Option PyExc
  waitNext : Option PyExc
  nextClick : Option PyExc
  waitSubmit : Option PyExc
  submitClick : Option PyExc
deriving DecidableEq, Repr

/-- Inner try of the job-title click: a plain click; if it raises
ElementClickIntercepted or ElementNotInteractable, retry with a
JavaScript click; other exceptions propagate to the outer handlers. -/
def titleClickStep (env : AttemptEnv) (jt : String) (s : S)
    (k : S → S × Outcome Unit) : S × Outcome Unit :=
  match env.titleClick with
  | .clickOk opens => k (emit (.clickTitle jt) (maybeOpen opens s))
  | .clickErr e =>
      if isInterceptedOrNI e then
        match env.jsTitleClick with
        | .clickOk opens => k (emit (.clickTitle jt) (maybeOpen opens s))
        | .clickErr e2 => (s, .exc e2)
      else (s, .exc e)

/-- Window bookkeeping after the title click: if more than one window
is open, switch to the first handle different from original_window
(indexing an empty list would raise, as Python list indexing does). -/
def windowSwitchStep (s : S) (k : S → S × Outcome Unit) : S × Outcome Unit :=
  if s.browser.windows.length > 1 then
    match (s.browser.windows.filter fun w => w != s.browser.current).head? with
    | some nw => k (switchToWindow nw s)
    | none => (s, .exc .otherExc)
  else k s

/-- Inner try of the Easy Apply click: any exception falls back to a
JavaScript click. -/
def applyClickStep (env : AttemptEnv) (s : S) (k : S → S × Outcome Unit) :
    S × Outcome Unit :=
  match env.applyClick with
  | none => k (emit .clickShadowButton s)
  | some _ =>
      match env.jsApplyClick with
      | none => k (emit .clickShadowButton s)
      | some e2 => (s, .exc e2)

/-- Part of the apply_to_job try-block after the Easy Apply click:
wait for the application page, click Next, click Submit, record the
job as applied, then close the extra window or navigate back (source
lines 229-267). -/
def applyAfterClick (env : AttemptEnv) (jt : String) (s : S) : S × Outcome Unit :=
  attempt env.waitUrlApply s fun s =>
  attempt env.waitNext s fun s =>
  let s := tick 5 s
  attemptE env.nextClick .clickNext s fun s =>
  let s := tick 5 s
  let s := tick 5 s
  attempt env.waitSubmit s fun s =>
  attemptE env.submitClick (.clickSubmit jt) s fun s =>
  let s := { s with applied := pySetAdd jt s.applied }
  let s := tick 10 s
  if s.browser.windows.length > 1 then
    let s := closeCurrentWindow s
    match s.owLocal with
    | some ow => (switchToWindow ow s, .ok ())
    | none => (s, .exc .unboundLocal)
  else (emit .navBack s, .ok ())

/-- Tail of the apply_to_job try-block, from the wait for the job
details page to the final close-or-back step (source lines 202-267). -/
def applyTail (env : AttemptEnv) (jt : String) (s : S) : S × Outcome Unit :=
  attempt env.waitDetails s fun s =>
  let s := tick 7 s
  attempt env.findApplyWc s fun s =>
  let s := tick 7 s
  let s := emit (.shadowRootEval "apply-button-wc") s
  attemptE env.shadowFind (.shadowFind "button.btn.btn-primary") s fun s =>
  let s := tick 5 s
  applyClickStep env s fun s =>
  applyAfterClick env jt s

/-- Try-block body of apply_to_job (source lines 163-267): skip an
already-applied title, otherwise scroll, click the title, record
original_window, switch to a new window if one opened, then applyTail. -/
def applyBody (env : AttemptEnv) (jt : String) (s : S) : S × Outcome Unit :=
  if jt ∈ s.applied then (s, .ok ())
  else
  let s := tick 1 s
  attempt env.findTitleLink s fun s =>
  attempt env.waitTitleClickable s fun s =>
  titleClickStep env jt s fun s =>
  let s := { s with owLocal := some s.browser.current }
  windowSwitchStep s fun s =>
  applyTail env jt s

/-- Except-clauses of apply_to_job: NoSuchElement and Timeout also log
the available buttons; both clauses capture an error screenshot and
swallow the exception. -/
def applyHandlers (jt : String) (sr : S × Outcome Unit) : S × Outcome Unit :=
  match sr with
  | (s, .exc e) =>
      if isNoSuchOrTimeout e then
        let s := log_available_buttons jt s
        (capture_screenshot ("error_applying_" ++ sanitize_title jt)
          "easy_apply_errors" s, .ok ())
      else
        (capture_screenshot ("error_applying_" ++ sanitize_title jt)
          "easy_apply_errors" s, .ok ())
  | r => r

/-- Finally-clause of apply_to_job: with more than one window open,
close the focused one and switch back to original_window; reading an
unbound original_window raises UnboundLocalError after the close. -/
def applyFinally (sr : S × Outcome Unit) : S × Outcome Unit :=
  let (s, r) := sr
  if s.browser.windows.length > 1 then
    let s := closeCurrentWindow s
    match s.owLocal with
    | some ow => (switchToWindow ow s, r)
    | none => (s, .exc .unboundLocal)
  else (s, r)

/-- Embeds apply_to_job of the 20240925103923 revision: the try-body,
its two except-clauses, and the finally-clause; the Python local
original_window starts unbound. -/
def apply_to_job (env : AttemptEnv) (jt : String) (s : S) : S × Outcome Unit :=
  applyFinally (applyHandlers jt (applyBody env jt { s with owLocal := none }))

/-- Per-card environment of the main loop: the outcome of the job-title
lookup (find_element plus .text; none means the title is found, some e
that exception was raised), the raw title text, the apply_to_job
environment, and the randomness for the pause. -/
structure CardEnv where
  titleLookup : Option PyExc
  titleText : String
  attemptEnv : AttemptEnv
  rand : Nat
deriving DecidableEq, Repr

/-- Environment of main: the three fallible search-phase calls, the
filter environment, and the job cards found on the listings page. -/
structure MainEnv where
  searchFieldWait : Option PyExc
  searchButtonFind : Option PyExc
  searchButtonClick : Option PyExc
  filterEnv : FilterEnv
  cards : List CardEnv
deriving DecidableEq, Repr

/-- Embeds the for-loop of main over the job cards: a title lookup
raising NoSuchElementException captures a screenshot and continues, any
other exception from the lookup escapes the loop (only main's outer
except-clause catches it); otherwise apply to the job and pause for
random.randint(MIN_PAUSE, MAX_PAUSE) seconds, which raises ValueError
(also escaping the loop) when MIN_PAUSE exceeds MAX_PAUSE. -/
def mainLoop (minP maxP : Int) : List CardEnv → Nat → S → S × Outcome Unit
  | [], _, s => (s, .ok ())
  | c :: rest, idx, s =>
      let s := emit (.processCard idx) s
      match c.titleLookup with
      | none =>
          let jt := pyStrip c.titleText
          match apply_to_job c.attemptEnv jt s with
          | (s, .ok _) =>
              match randintE minP maxP c.rand with
              | .ok d =>
                  let s := emit (.pauseBetween d) s
                  let s := tick d.toNat s
                  mainLoop minP maxP rest (idx + 1) s
              | .exc e => (s, .exc e)
              | .exited cd => (s, .exited cd)
          | (s, .exc e) => (s, .exc e)
          | (s, .exited cd) => (s, .exited cd)
      | some e =>
          if e = .noSuchElement then
            let s := capture_screenshot ("job_" ++ toString idx ++ "_no_title")
              "job_card_errors" s
            mainLoop minP maxP rest (idx + 1) s
          else (s, .exc e)

/-- Try-block body of main: open the homepage, fill and submit the
search, activate the Easy Apply filter, then loop over the job cards. -/
def mainBody (terms : String) (minP maxP : Int) (env : MainEnv) (s : S) :
    S × Outcome Unit :=
  let s := setUrl "https://www.dice.com/" (emit (.navigate "https://www.dice.com/") s)
  attempt env.searchFieldWait s fun s =>
  attempt env.searchButtonFind s fun s =>
  attemptE env.searchButtonClick .searchClick s fun s =>
  match activate_easy_apply_filter terms env.filterEnv s with
  | (s, .ok _) =>
      let s := tick 3 s
      mainLoop minP maxP env.cards 1 s
  | (s, .exc e) => (s, .exc e)
  | (s, .exited c) => (s, .exited c)

/-- Embeds main: the try-body, the except-clause capturing a
main_exception screenshot, and the finally-clause quitting the driver
(sys.exit from the filter is not caught by except Exception). -/
def mainRun (terms : String) (minP maxP : Int) (env : MainEnv) (s : S) :
    S × Outcome Unit :=
  match mainBody terms minP maxP env s with
  | (s, .exc _) =>
      (emit .quitDriver (capture_screenshot "main_exception" "main_errors" s), .ok ())
  | (s, r) => (emit .quitDriver s, r)

/-- Raw config.ini contents: each key of the DEFAULT section may be
absent. -/
structure IniConfig where
  searchTerms : Option String
  email : Option String
  password : Option String
  pauseMin : Option String
  pauseMax : Option String
deriving DecidableEq, Repr

/-- Values the module prologue binds on success. -/
structure ModuleCtx where
  terms : String
  minPause : Int
  maxPause : Int
deriving DecidableEq, Repr

/-- Embeds the module-level prologue: read SearchTerms, Email and
Password (a missing key raises an uncaught KeyError), read and parse
the two pause durations (missing key or non-integer exits with 1),
then start the WebDriver (a WebDriverException exits with 1). -/
def moduleInit (cfg : IniConfig) (launch : Option PyExc) (s : S) :
    S × Outcome ModuleCtx :=
  match cfg.searchTerms with
  | none => (s, .exc .keyErr)
  | some terms =>
  match cfg.email with
  | none => (s, .exc .keyErr)
  | some _ =>
  match cfg.password with
  | none => (s, .exc .keyErr)
  | some _ =>
  match cfg.pauseMin with
  | none => (s, .exited 1)
  | some vmin =>
  match parsePyInt vmin with
  | none => (s, .exited 1)
  | some mn =>
  match cfg.pauseMax with
  | none => (s, .exited 1)
  | some vmax =>
  match parsePyInt vmax with
  | none => (s, .exited 1)
  | some mx =>
  match launch with
  | some e => if e == .webDriverExc then (s, .exited 1) else (s, .exc e)
  | none => (emit .browserLaunch s, .ok ⟨terms, mn, mx⟩)

/-- Embeds a whole run of the script: module prologue, then main. -/
def fullRun (cfg : IniConfig) (launch : Option PyExc) (env : MainEnv) (s : S) :
    S × Outcome Unit :=
  match moduleInit cfg launch s with
  | (s, .ok ctx) => mainRun ctx.terms ctx.minPause ctx.maxPause env s
  | (s, .exc e) => (s, .exc e)
  | (s, .exited c) => (s, .exited c)

end Rev20240925

namespace Rev20240920

/-- Environment of one apply_to_job call of the 20240920204534
revision, one field per fallible driver call in source order. -/
structure ApplyEnv where
  findEasyApply : Option PyExc
  applyClick : Option PyExc
  findUpload : Option PyExc
  sendResume : Option PyExc
  findSubmit : Option PyExc
  submitClick : Option PyExc
deriving DecidableEq, Repr

/-- Embeds apply_to_job of the 20240920204534 revision: open the job
link, click Easy Apply, send RESUME_PATH to the upload field, click
Submit, and log; any exception is logged and swallowed. -/
def apply_to_job (resumePath jobLink : String) (env : ApplyEnv) (s : S) :
    S × Outcome Unit :=
  let s := setUrl jobLink (emit (.navigate jobLink) s)
  let s := tick 2 s
  let body :=
    attempt env.findEasyApply s fun s =>
    attempt env.applyClick s fun s =>
    let s := tick 2 s
    attempt env.findUpload s fun s =>
    attemptE env.sendResume (.uploadResume resumePath) s fun s =>
    let s := tick 2 s
    attempt env.findSubmit s fun s =>
    attemptE env.submitClick (.clickSubmit jobLink) s fun s =>
    (emit .logWrite s, .ok ())
  match body with
  | (s, .exc _) => (emit .logWrite s, .ok ())
  | r => r

end Rev20240920

/-- Boolean test for a login event. -/
def isLoginEvt : Event → Bool
  | .loginStep _ _ => true
  | _ => false

/-- Boolean test for a resume-upload event. -/
def isUploadEvt : Event → Bool
  | .uploadResume _ => true
  | _ => false

/-- Boolean test for a shadow-root evaluation event. -/
def isShadowEvalEvt : Event → Bool
  | .shadowRootEval _ => true
  | _ => false

/-- Boolean test for the filter-activation event. -/
def isFilterEvt : Event → Bool
  | .filterActivated => true
  | _ => false

/-- Boolean test for the search-button click event. -/
def isSearchClickEvt : Event → Bool
  | .searchClick => true
  | _ => false

/-- Boolean test for the browser-launch event. -/
def isLaunchEvt : Event → Bool
  | .browserLaunch => true
  | _ => false

/-- Boolean test for events that only the job-card loop produces. -/
def isLoopStartEvt : Event → Bool
  | .processCard _ => true
  | .clickTitle _ => true
  | _ => false

/-- Boolean test for page-interaction events (everything main does
after the WebDriver exists). -/
def isPageEvt : Event → Bool
  | .navigate _ => true
  | .searchClick => true
  | .filterActivated => true
  | .processCard _ => true
  | .clickTitle _ => true
  | _ => false

/-- Boolean test for a submit-click event. -/
def isSubmitEvt : Event → Bool
  | .clickSubmit _ => true
  | _ => false

/-- Number of shadow-root evaluations in a trace. -/
def countShadowEval (l : List Event) : Nat :=
  (l.filter isShadowEvalEvt).length

/-- Scanning a trace chronologically, no event matched by second occurs
strictly before the first event matched by first. -/
def precedes (first second : Event → Bool) : List Event → Bool
  | [] => true
  | e :: t => if first e then true else if second e then false else precedes first second t

/-- The path lies inside the screenshots directory tree. -/
def dirOk (p : String) : Prop :=
  "screenshots/".data <+: p.data

/-- The path names a PNG file. -/
def pngOk (p : String) : Prop :=
  ".png".data <:+ p.data

/-- Every file-system effect the final revision is allowed to have:
directories and PNG screenshots under screenshots/; the events the
final revision never produces at all (login, resume upload, log-file
write) are excluded outright, and browserLaunch belongs to the module
prologue alone.  Shadow-DOM events must carry the one host and the one
button selector the source uses. -/
def mainEvtOk : Event → Prop
  | .dirCreate p => dirOk p
  | .screenshotSave p => dirOk p ∧ pngOk p
  | .loginStep _ _ => False
  | .uploadResume _ => False
  | .logWrite => False
  | .browserLaunch => False
  | .shadowRootEval h => h = "apply-button-wc"
  | .shadowFind css => css = "button.btn.btn-primary"
  | _ => True

/-- Events a single apply_to_job call may produce, with the same
file-path and shadow-DOM constraints as mainEvtOk, and additionally no
search, filter, pause, process-card or navigation-to-URL events. -/
def applyEvtOk (jt : String) : Event → Prop
  | .clickTitle j => j = jt
  | .shadowRootEval h => h = "apply-button-wc"
  | .shadowFind css => css = "button.btn.btn-primary"
  | .clickShadowButton => True
  | .clickNext => True
  | .clickSubmit j => j = jt
  | .navBack => True
  | .dirCreate p => dirOk p
  | .screenshotSave p => dirOk p ∧ pngOk p
  | _ => False

/-- Events one iteration of main's job-card loop may produce, with the
shadow-DOM and file-path constraints, and every pause drawn from
randint(MIN_PAUSE, MAX_PAUSE). -/
def loopEvtOk (minP maxP : Int) : Event → Prop
  | .processCard _ => True
  | .clickTitle _ => True
  | .shadowRootEval h => h = "apply-button-wc"
  | .shadowFind css => css = "button.btn.btn-primary"
  | .clickShadowButton => True
  | .clickNext => True
  | .clickSubmit _ => True
  | .navBack => True
  | .pauseBetween d => ∃ r, d = randint minP maxP r
  | .dirCreate p => dirOk p
  | .screenshotSave p => dirOk p ∧ pngOk p
  | _ => False

/-- Concrete machine state for witnesses: a fresh browser with a single
window, an empty trace, and no applied jobs. -/
def s0 : S :=
  ⟨⟨"about:blank", [0], 0⟩, [], [], 0, none⟩

/-- Concrete apply_to_job environment in which every driver call
succeeds and no click opens a new window. -/
def attemptEnvOk : Rev20240925.AttemptEnv :=
  ⟨none, none, .clickOk false, .clickOk false, none, none, none, none, none,
   none, none, none, none, none⟩

/-- Concrete apply_to_job environment in which the title click opens a
new window and everything succeeds. -/
def attemptEnvWin : Rev20240925.AttemptEnv :=
  ⟨none, none, .clickOk true, .clickOk false, none, none, none, none, none,
   none, none, none, none, none⟩

/-- Concrete job card whose title is found. -/
def cardOk : Rev20240925.CardEnv :=
  ⟨none, "Senior Frontend Developer", attemptEnvOk, 0⟩

/-- Concrete main environment: search phase and filter succeed, one job
card. -/
def mainEnvOk : Rev20240925.MainEnv :=
  ⟨none, none, none, ⟨none⟩, [cardOk]⟩

/-- Concrete configuration with every key present and integral pauses. -/
def cfgOk : Rev20240925.IniConfig :=
  ⟨some "angular", some "user@example.com", some "hunter2", some "2", some "3"⟩

/-- Concrete configuration missing PauseDurationMin. -/
def cfgNoMin : Rev20240925.IniConfig :=
  ⟨some "angular", some "user@example.com", some "hunter2", none, some "3"⟩

/-- Concrete configuration whose PauseDurationMax is not an integer. -/
def cfgBadMax : Rev20240925.IniConfig :=
  ⟨some "angular", some "user@example.com", some "hunter2", some "2", some "ten"⟩

/-- Concrete environment for the 20240920204534 apply_to_job in which
every driver call succeeds. -/
def rev0EnvOk : Rev20240920.ApplyEnv :=
  ⟨none, none, none, none, none, none⟩

/-- Concrete filter environment whose wait for the listings times out. -/
def filterEnvFail : Rev20240925.FilterEnv :=
  ⟨some .timeoutExc⟩

theorem sanitize_title_chars (t : String) :
    ∀ c ∈ (sanitize_title t).data, pyIsAlnum c = true ∨ c = '_' := by
  intro c hc
  simp only [sanitize_title, List.mem_map] at hc
  obtain ⟨a, ha, rfl⟩ := hc
  have ha' : a ∈ t.data.filter fun c => pyIsAlnum c || c == ' ' || c == '_' := by
    have h1 : a ∈ (t.data.filter fun c => pyIsAlnum c || c == ' ' || c == '_').reverse.dropWhile
        Char.isWhitespace := List.mem_reverse.mp (by simpa [pyRstrip] using ha)
    exact List.mem_reverse.mp ((List.dropWhile_sublist _).subset h1)
  have hkeep := List.of_mem_filter ha'
  simp only [Bool.or_eq_true, beq_iff_eq] at hkeep
  by_cases hsp : a = ' '
  · subst hsp; simp
  · rcases hkeep with (h | h) | h
    · left
      simpa [hsp] using h
    · exact absurd h hsp
    · subst h; simp

theorem dirOk_build (r : String) : dirOk ("screenshots/" ++ r) := by
  simp only [dirOk, String.data_append]
  exact List.prefix_append _ _

theorem pngOk_lit (p : String) : pngOk (p ++ ".png") := by
  simp only [pngOk, String.data_append]
  exact List.suffix_append _ _

theorem pngOk_append_left (p q : String) (h : pngOk q) : pngOk (p ++ q) := by
  simp only [pngOk, String.data_append] at h ⊢
  exact h.trans (List.suffix_append _ _)

theorem pngOk_shape (c d : String) :
    pngOk ("screenshots/" ++ (c ++ (d ++ ".png"))) :=
  pngOk_append_left _ _ (pngOk_append_left _ _ (pngOk_lit d))

theorem hasSubAux_cons (a : Char) (t n : List Char) :
    hasSubAux (a :: t) n = (n.isPrefixOf (a :: t) || hasSubAux t n) := rfl

theorem hasSubAux_self (n : List Char) : hasSubAux n n = true := by
  cases n with
  | nil => rfl
  | cons a t =>
      rw [hasSubAux_cons]
      simp [List.isPrefixOf_iff_prefix]

theorem hasSubAux_append_left (p t n : List Char) (h : hasSubAux t n = true) :
    hasSubAux (p ++ t) n = true := by
  induction p with
  | nil => simpa using h
  | cons a q ih =>
      rw [List.cons_append, hasSubAux_cons, ih]
      simp

theorem countShadowEval_append (a b : List Event) :
    countShadowEval (a ++ b) = countShadowEval a + countShadowEval b := by
  simp [countShadowEval, List.filter_append]

theorem precedes_of_all_not (f g : Event → Bool) (l : List Event)
    (h : ∀ e ∈ l, g e = false) : precedes f g l = true := by
  induction l with
  | nil => rfl
  | cons e t ih =>
      simp only [precedes]
      by_cases hf : f e = true
      · simp [hf]
      · simp [hf, h e (by simp)]
        exact ih fun x hx => h x (by simp [hx])

theorem precedes_append (f g : Event → Bool) (A B : List Event)
    (hA : ∀ e ∈ A, g e = false)
    (hfound : A.any f = true ∨ ∀ e ∈ B, g e = false) :
    precedes f g (A ++ B) = true := by
  induction A with
  | nil =>
      rcases hfound with h | h
      · simp at h
      · simpa using precedes_of_all_not f g B h
  | cons e t ih =>
      simp only [List.cons_append, precedes]
      by_cases hf : f e = true
      · simp [hf]
      · have hge := hA e (by simp)
        simp only [hf, if_false, hge]
        apply ih fun x hx => hA x (by simp [hx])
        rcases hfound with h | h
        · left
          simpa [hf] using h
        · right
          exact h

theorem randint_bounds (a b : Int) (r : Nat) (h : a ≤ b) :
    a ≤ randint a b r ∧ randint a b r ≤ b := by
  unfold randint
  have hk : 0 < (b - a + 1).toNat := by omega
  have hlt : r % (b - a + 1).toNat < (b - a + 1).toNat := Nat.mod_lt _ hk
  omega

theorem applyHandlers_exc (jt : String) (s : S) (e : PyExc) :
    ∃ new, Rev20240925.applyHandlers jt (s, .exc e) =
      ({ s with events := s.events ++ new }, .ok ()) ∧
      (∀ ev ∈ new, applyEvtOk jt ev) ∧ countShadowEval new = 0 ∧
      Event.clickSubmit jt ∉ new := by
  by_cases hnt : isNoSuchOrTimeout e = true
  · refine ⟨[.screenshotSave ("screenshots/" ++ ("missing_easy_apply/" ++
        ("screenshot_job_" ++ sanitize_title jt ++ ".png"))),
      .dirCreate ("screenshots/" ++ "easy_apply_errors"),
      .screenshotSave ("screenshots/" ++ ("easy_apply_errors" ++ "/" ++
        ("screenshot_" ++ sanitize_title ("error_applying_" ++ sanitize_title jt) ++
          "_" ++ toString s.clock ++ ".png")))], ?_, ?_, ?_, ?_⟩
    · simp [Rev20240925.applyHandlers, hnt, Rev20240925.log_available_buttons,
        Rev20240925.capture_screenshot, Rev20240925.create_directory, emit,
        List.append_assoc]
    · intro ev hev
      simp only [List.mem_cons, List.not_mem_nil, or_false] at hev
      rcases hev with rfl | rfl | rfl
      · exact ⟨dirOk_build _, pngOk_shape _ _⟩
      · exact dirOk_build _
      · exact ⟨dirOk_build _, pngOk_shape _ _⟩
    · simp [countShadowEval, isShadowEvalEvt]
    · simp
  · refine ⟨[.dirCreate ("screenshots/" ++ "easy_apply_errors"),
      .screenshotSave ("screenshots/" ++ ("easy_apply_errors" ++ "/" ++
        ("screenshot_" ++ sanitize_title ("error_applying_" ++ sanitize_title jt) ++
          "_" ++ toString s.clock ++ ".png")))], ?_, ?_, ?_, ?_⟩
    · simp [Rev20240925.applyHandlers, hnt, Rev20240925.capture_screenshot,
        Rev20240925.create_directory, emit, List.append_assoc]
    · intro ev hev
      simp only [List.mem_cons, List.not_mem_nil, or_false] at hev
      rcases hev with rfl | rfl
      · exact dirOk_build _
      · exact ⟨dirOk_build _, pngOk_shape _ _⟩
    · simp [countShadowEval, isShadowEvalEvt]
    · simp

theorem applyFinally_single (s : S) (r : Outcome Unit) (w : Nat)
    (hw : s.browser.windows = [w]) :
    Rev20240925.applyFinally (s, r) = (s, r) := by
  simp [Rev20240925.applyFinally, hw]

theorem excLeafD (jt : String) (s : S) (e : PyExc) (ow : Nat)
    (hw : s.browser.windows = [ow] ∧ s.browser.current = ow ∨
          s.browser.windows = [ow, s.browser.current] ∧ s.browser.current ≠ ow)
    (hol : s.owLocal = some ow) :
    ∃ s2 new,
      Rev20240925.applyFinally (Rev20240925.applyHandlers jt (s, .exc e)) = (s2, .ok ()) ∧
      s2.events = s.events ++ new ∧
      s2.browser.windows = [ow] ∧ s2.browser.current = ow ∧
      s2.applied = s.applied ∧
      (∀ ev ∈ new, applyEvtOk jt ev) ∧ countShadowEval new = 0 ∧
      Event.clickSubmit jt ∉ new := by
  obtain ⟨new, heq, hok, hcnt, hsub⟩ := applyHandlers_exc jt s e
  rw [heq]
  rcases hw with ⟨hw1, hw2⟩ | ⟨hw1, hw2⟩
  · rw [applyFinally_single _ _ ow (by simpa using hw1)]
    exact ⟨_, new, rfl, by simp, by simpa using hw1, by simpa using hw2, rfl,
      hok, hcnt, hsub⟩
  · have hbe : (ow == s.browser.current) = false := by
      simp [Ne.symm hw2]
    have hstep : Rev20240925.applyFinally ({ s with events := s.events ++ new },
        (Outcome.ok () : Outcome Unit)) =
        ({ s with
            events := s.events ++ new
            browser := { s.browser with windows := [ow], current := ow } }, .ok ()) := by
      simp [Rev20240925.applyFinally, hw1, hol, closeCurrentWindow, switchToWindow,
        List.erase_cons, hbe]
    rw [hstep]
    exact ⟨_, new, rfl, by simp, by simp, by simp, rfl, hok, hcnt, hsub⟩

theorem excLeaf0 (jt : String) (s : S) (e : PyExc) (w : Nat)
    (hw : s.browser.windows = [w]) :
    ∃ new, Rev20240925.applyFinally (Rev20240925.applyHandlers jt (s, .exc e)) =
      ({ s with events := s.events ++ new }, .ok ()) ∧
      (∀ ev ∈ new, applyEvtOk jt ev) ∧ countShadowEval new = 0 ∧
      Event.clickSubmit jt ∉ new := by
  obtain ⟨new, heq, hok, hcnt, hsub⟩ := applyHandlers_exc jt s e
  rw [heq, applyFinally_single _ _ w (by simpa using hw)]
  exact ⟨new, rfl, hok, hcnt, hsub⟩

theorem excSite (jt : String) (s st : S) (e : PyExc) (ow : Nat) (accum : List Event)
    (hstEv : st.events = s.events ++ accum)
    (hstBr : st.browser = s.browser)
    (hstOw : st.owLocal = s.owLocal)
    (hstAp : st.applied = s.applied)
    (hol : s.owLocal = some ow)
    (hw : s.browser.windows = [ow] ∧ s.browser.current = ow ∨
          s.browser.windows = [ow, s.browser.current] ∧ s.browser.current ≠ ow)
    (haccum : ∀ ev ∈ accum, applyEvtOk jt ev)
    (hasub : Event.clickSubmit jt ∉ accum) :
    ∃ s2 new,
      Rev20240925.applyFinally (Rev20240925.applyHandlers jt (st, .exc e)) = (s2, .ok ()) ∧
      s2.events = s.events ++ new ∧
      s2.browser.windows = [ow] ∧ s2.browser.current = ow ∧
      s2.applied = s.applied ∧
      (∀ ev ∈ new, applyEvtOk jt ev) ∧
      countShadowEval new = countShadowEval accum ∧
      Event.clickSubmit jt ∉ new := by
  have hw' : st.browser.windows = [ow] ∧ st.browser.current = ow ∨
      st.browser.windows = [ow, st.browser.current] ∧ st.browser.current ≠ ow := by
    rw [hstBr]
    exact hw
  obtain ⟨s2, new, heq, hev, hwin, hcur, happ, hok, hcnt, hsub⟩ :=
    excLeafD jt st e ow hw' (hstOw ▸ hol)
  refine ⟨s2, accum ++ new, heq, ?_, hwin, hcur, by rw [happ, hstAp], ?_, ?_, ?_⟩
  · rw [hev, hstEv, List.append_assoc]
  · intro ev hv
    rcases List.mem_append.mp hv with h | h
    · exact haccum _ h
    · exact hok _ h
  · rw [countShadowEval_append, hcnt]
    omega
  · simp [List.mem_append, hasub, hsub]

theorem applyAfterClick_pipeline (env : Rev20240925.AttemptEnv) (jt : String) (s : S)
    (ow : Nat) (hol : s.owLocal = some ow)
    (hw : s.browser.windows = [ow] ∧ s.browser.current = ow ∨
          s.browser.windows = [ow, s.browser.current] ∧ s.browser.current ≠ ow) :
    ∃ s2 new,
      Rev20240925.applyFinally (Rev20240925.applyHandlers jt
        (Rev20240925.applyAfterClick env jt s)) = (s2, .ok ()) ∧
      s2.events = s.events ++ new ∧
      s2.browser.windows = [ow] ∧ s2.browser.current = ow ∧
      s2.applied = (if Event.clickSubmit jt ∈ new then pySetAdd jt s.applied else s.applied) ∧
      (∀ ev ∈ new, applyEvtOk jt ev) ∧ countShadowEval new = 0 := by
  rcases hwu : env.waitUrlApply with _ | e
  swap
  · have hred : Rev20240925.applyAfterClick env jt s = (s, .exc e) := by
      simp [Rev20240925.applyAfterClick, attempt, hwu]
    rw [hred]
    obtain ⟨s2, new, heq, hev, hwin, hcur, happ, hok, hcnt, hsub⟩ :=
      excSite jt s s e ow [] (by simp) rfl rfl rfl hol hw (by simp) (by simp)
    refine ⟨s2, new, heq, hev, hwin, hcur, ?_, hok, ?_⟩
    · rw [if_neg hsub, happ]
    · simpa [countShadowEval] using hcnt
  rcases hwn : env.waitNext with _ | e
  swap
  · have hred : Rev20240925.applyAfterClick env jt s = (s, .exc e) := by
      simp [Rev20240925.applyAfterClick, attempt, hwu, hwn]
    rw [hred]
    obtain ⟨s2, new, heq, hev, hwin, hcur, happ, hok, hcnt, hsub⟩ :=
      excSite jt s s e ow [] (by simp) rfl rfl rfl hol hw (by simp) (by simp)
    refine ⟨s2, new, heq, hev, hwin, hcur, ?_, hok, ?_⟩
    · rw [if_neg hsub, happ]
    · simpa [countShadowEval] using hcnt
  rcases hnc : env.nextClick with _ | e
  swap
  · have hred : Rev20240925.applyAfterClick env jt s = (tick 5 s, .exc e) := by
      simp [Rev20240925.applyAfterClick, attempt, attemptE, hwu, hwn, hnc, tick]
    rw [hred]
    obtain ⟨s2, new, heq, hev, hwin, hcur, happ, hok, hcnt, hsub⟩ :=
      excSite jt s (tick 5 s) e ow [] (by simp [tick]) rfl rfl rfl hol hw
        (by simp) (by simp)
    refine ⟨s2, new, heq, hev, hwin, hcur, ?_, hok, ?_⟩
    · rw [if_neg hsub, happ]
    · simpa [countShadowEval] using hcnt
  rcases hws : env.waitSubmit with _ | e
  swap
  · have hred : Rev20240925.applyAfterClick env jt s =
        (tick 5 (tick 5 (emit .clickNext (tick 5 s))), .exc e) := by
      simp [Rev20240925.applyAfterClick, attempt, attemptE, hwu, hwn, hnc, hws,
        tick, emit]
    rw [hred]
    obtain ⟨s2, new, heq, hev, hwin, hcur, happ, hok, hcnt, hsub⟩ :=
      excSite jt s (tick 5 (tick 5 (emit .clickNext (tick 5 s)))) e ow [.clickNext]
        (by simp [tick, emit]) rfl rfl rfl hol hw
        (by intro ev h; rw [List.mem_singleton] at h; subst h; trivial)
        (by simp)
    refine ⟨s2, new, heq, hev, hwin, hcur, ?_, hok, ?_⟩
    · rw [if_neg hsub, happ]
    · simpa [countShadowEval, isShadowEvalEvt] using hcnt
  rcases hsc : env.submitClick with _ | e
  swap
  · have hred : Rev20240925.applyAfterClick env jt s =
        (tick 5 (tick 5 (emit .clickNext (tick 5 s))), .exc e) := by
      simp [Rev20240925.applyAfterClick, attempt, attemptE, hwu, hwn, hnc, hws, hsc,
        tick, emit]
    rw [hred]
    obtain ⟨s2, new, heq, hev, hwin, hcur, happ, hok, hcnt, hsub⟩ :=
      excSite jt s (tick 5 (tick 5 (emit .clickNext (tick 5 s)))) e ow [.clickNext]
        (by simp [tick, emit]) rfl rfl rfl hol hw
        (by intro ev h; rw [List.mem_singleton] at h; subst h; trivial)
        (by simp)
    refine ⟨s2, new, heq, hev, hwin, hcur, ?_, hok, ?_⟩
    · rw [if_neg hsub, happ]
    · simpa [countShadowEval, isShadowEvalEvt] using hcnt
  rcases hw with ⟨hw1, hw2⟩ | ⟨hw1, hw2⟩
  · refine ⟨{ s with
        events := s.events ++ [.clickNext, .clickSubmit jt, .navBack]
        applied := pySetAdd jt s.applied
        clock := s.clock + 5 + 5 + 5 + 10 },
      [.clickNext, .clickSubmit jt, .navBack], ?_, by simp, by simp [hw1],
      by simp [hw2], ?_, ?_, by simp [countShadowEval, isShadowEvalEvt]⟩
    · have hred : Rev20240925.applyAfterClick env jt s =
          ({ s with
              events := s.events ++ [.clickNext, .clickSubmit jt, .navBack]
              applied := pySetAdd jt s.applied
              clock := s.clock + 5 + 5 + 5 + 10 }, .ok ()) := by
        simp [Rev20240925.applyAfterClick, attempt, attemptE, hwu, hwn, hnc, hws, hsc,
          tick, emit, hw1, List.append_assoc]
      rw [hred]
      have hpass : Rev20240925.applyHandlers jt
          (({ s with
              events := s.events ++ [.clickNext, .clickSubmit jt, .navBack]
              applied := pySetAdd jt s.applied
              clock := s.clock + 5 + 5 + 5 + 10 } : S), (.ok () : Outcome Unit)) =
          ({ s with
              events := s.events ++ [.clickNext, .clickSubmit jt, .navBack]
              applied := pySetAdd jt s.applied
              clock := s.clock + 5 + 5 + 5 + 10 }, .ok ()) := rfl
      rw [hpass]
      exact applyFinally_single _ _ ow (by simp [hw1])
    · rw [if_pos (by simp)]
    · intro ev h
      rcases List.mem_cons.mp h with rfl | h
      · trivial
      rcases List.mem_cons.mp h with rfl | h
      · rfl
      rcases List.mem_cons.mp h with rfl | h
      · trivial
      · cases h
  · have hbe : (ow == s.browser.current) = false := by
      simp [Ne.symm hw2]
    refine ⟨{ s with
        events := s.events ++ [.clickNext, .clickSubmit jt]
        applied := pySetAdd jt s.applied
        clock := s.clock + 5 + 5 + 5 + 10
        browser := { s.browser with windows := [ow], current := ow } },
      [.clickNext, .clickSubmit jt], ?_, by simp, by simp, by simp, ?_, ?_,
      by simp [countShadowEval, isShadowEvalEvt]⟩
    · have hred : Rev20240925.applyAfterClick env jt s =
          ({ s with
              events := s.events ++ [.clickNext, .clickSubmit jt]
              applied := pySetAdd jt s.applied
              clock := s.clock + 5 + 5 + 5 + 10
              browser := { s.browser with windows := [ow], current := ow } }, .ok ()) := by
        simp [Rev20240925.applyAfterClick, attempt, attemptE, hwu, hwn, hnc, hws, hsc,
          tick, emit, hw1, hol, closeCurrentWindow, switchToWindow, List.erase_cons,
          hbe, List.append_assoc]
      rw [hred]
      have hpass : Rev20240925.applyHandlers jt
          (({ s with
              events := s.events ++ [.clickNext, .clickSubmit jt]
              applied := pySetAdd jt s.applied
              clock := s.clock + 5 + 5 + 5 + 10
              browser := { s.browser with windows := [ow], current := ow } } : S),
            (.ok () : Outcome Unit)) =
          ({ s with
              events := s.events ++ [.clickNext, .clickSubmit jt]
              applied := pySetAdd jt s.applied
              clock := s.clock + 5 + 5 + 5 + 10
              browser := { s.browser with windows := [ow], current := ow } }, .ok ()) := rfl
      rw [hpass]
      exact applyFinally_single _ _ ow (by simp)
    · rw [if_pos (by simp)]
    · intro ev h
      rcases List.mem_cons.mp h with rfl | h
      · trivial
      rcases List.mem_cons.mp h with rfl | h
      · rfl
      · cases h

theorem applyTail_pipeline (env : Rev20240925.AttemptEnv) (jt : String) (s : S)
    (ow : Nat) (hol : s.owLocal = some ow)
    (hw : s.browser.windows = [ow] ∧ s.browser.current = ow ∨
          s.browser.windows = [ow, s.browser.current] ∧ s.browser.current ≠ ow) :
    ∃ s2 new,
      Rev20240925.applyFinally (Rev20240925.applyHandlers jt
        (Rev20240925.applyTail env jt s)) = (s2, .ok ()) ∧
      s2.events = s.events ++ new ∧
      s2.browser.windows = [ow] ∧ s2.browser.current = ow ∧
      s2.applied = (if Event.clickSubmit jt ∈ new then pySetAdd jt s.applied else s.applied) ∧
      (∀ ev ∈ new, applyEvtOk jt ev) ∧ countShadowEval new ≤ 1 ∧
      (Event.clickSubmit jt ∈ new → countShadowEval new = 1) := by
  rcases hwd : env.waitDetails with _ | e
  swap
  · have hred : Rev20240925.applyTail env jt s = (s, .exc e) := by
      simp [Rev20240925.applyTail, attempt, hwd]
    rw [hred]
    obtain ⟨s2, new, heq, hev, hwin, hcur, happ, hok, hcnt, hsub⟩ :=
      excSite jt s s e ow [] (by simp) rfl rfl rfl hol hw (by simp) (by simp)
    refine ⟨s2, new, heq, hev, hwin, hcur, ?_, hok, ?_, ?_⟩
    · rw [if_neg hsub, happ]
    · rw [hcnt]
      decide
    · intro h
      exact absurd h hsub
  rcases hfa : env.findApplyWc with _ | e
  swap
  · have hred : Rev20240925.applyTail env jt s = (tick 7 s, .exc e) := by
      simp [Rev20240925.applyTail, attempt, hwd, hfa, tick]
    rw [hred]
    obtain ⟨s2, new, heq, hev, hwin, hcur, happ, hok, hcnt, hsub⟩ :=
      excSite jt s (tick 7 s) e ow [] (by simp [tick]) rfl rfl rfl hol hw
        (by simp) (by simp)
    refine ⟨s2, new, heq, hev, hwin, hcur, ?_, hok, ?_, ?_⟩
    · rw [if_neg hsub, happ]
    · rw [hcnt]
      decide
    · intro h
      exact absurd h hsub
  rcases hsf : env.shadowFind with _ | e
  swap
  · have hred : Rev20240925.applyTail env jt s =
        (emit (.shadowRootEval "apply-button-wc") (tick 7 (tick 7 s)), .exc e) := by
      simp [Rev20240925.applyTail, attempt, attemptE, hwd, hfa, hsf, tick, emit]
    rw [hred]
    obtain ⟨s2, new, heq, hev, hwin, hcur, happ, hok, hcnt, hsub⟩ :=
      excSite jt s (emit (.shadowRootEval "apply-button-wc") (tick 7 (tick 7 s))) e ow
        [.shadowRootEval "apply-button-wc"] (by simp [tick, emit]) rfl rfl rfl hol hw
        (by intro ev h; rw [List.mem_singleton] at h; subst h; rfl)
        (by simp)
    refine ⟨s2, new, heq, hev, hwin, hcur, ?_, hok, ?_, ?_⟩
    · rw [if_neg hsub, happ]
    · rw [hcnt]
      decide
    · intro h
      exact absurd h hsub
  have hclick : ∀ st : S, st =
      tick 5 (emit (.shadowFind "button.btn.btn-primary")
        (emit (.shadowRootEval "apply-button-wc") (tick 7 (tick 7 s)))) →
      Rev20240925.applyTail env jt s =
        Rev20240925.applyClickStep env st fun s => Rev20240925.applyAfterClick env jt s := by
    intro st hst
    subst hst
    simp [Rev20240925.applyTail, attempt, attemptE, hwd, hfa, hsf, tick, emit]
  rcases hac : env.applyClick with _ | eA
  case some =>
    rcases hjac : env.jsApplyClick with _ | e2
    case some =>
      have hred : Rev20240925.applyTail env jt s =
          (tick 5 (emit (.shadowFind "button.btn.btn-primary")
            (emit (.shadowRootEval "apply-button-wc") (tick 7 (tick 7 s)))), .exc e2) := by
        rw [hclick _ rfl]
        simp [Rev20240925.applyClickStep, hac, hjac]
      rw [hred]
      have hmem : ∀ ev ∈ ([.shadowRootEval "apply-button-wc",
          .shadowFind "button.btn.btn-primary"] : List Event), applyEvtOk jt ev := by
        intro ev h
        rcases List.mem_cons.mp h with rfl | h
        · rfl
        rcases List.mem_cons.mp h with rfl | h
        · rfl
        · cases h
      obtain ⟨s2, new, heq, hev, hwin, hcur, happ, hok, hcnt, hsub⟩ :=
        excSite jt s (tick 5 (emit (.shadowFind "button.btn.btn-primary")
            (emit (.shadowRootEval "apply-button-wc") (tick 7 (tick 7 s))))) e2 ow
          [.shadowRootEval "apply-button-wc", .shadowFind "button.btn.btn-primary"]
          (by simp [tick, emit]) rfl rfl rfl hol hw hmem (by simp)
      refine ⟨s2, new, heq, hev, hwin, hcur, ?_, hok, ?_, ?_⟩
      · rw [if_neg hsub, happ]
      · rw [hcnt]
        decide
      · intro h
        exact absurd h hsub
    case none =>
      have hred : Rev20240925.applyTail env jt s =
          Rev20240925.applyAfterClick env jt (emit .clickShadowButton
            (tick 5 (emit (.shadowFind "button.btn.btn-primary")
              (emit (.shadowRootEval "apply-button-wc") (tick 7 (tick 7 s)))))) := by
        rw [hclick _ rfl]
        simp [Rev20240925.applyClickStep, hac, hjac]
      rw [hred]
      obtain ⟨s2, new, heq, hev, hwin, hcur, happ, hok, hcnt⟩ :=
        applyAfterClick_pipeline env jt (emit .clickShadowButton
          (tick 5 (emit (.shadowFind "button.btn.btn-primary")
            (emit (.shadowRootEval "apply-button-wc") (tick 7 (tick 7 s)))))) ow
          (by simp [tick, emit, hol]) (by simp [tick, emit]; exact hw)
      refine ⟨s2, [.shadowRootEval "apply-button-wc", .shadowFind "button.btn.btn-primary",
        .clickShadowButton] ++ new, heq, ?_, hwin, hcur, ?_, ?_, ?_, ?_⟩
      · rw [hev]
        simp [tick, emit, List.append_assoc]
      · rw [happ]
        by_cases hm : Event.clickSubmit jt ∈ new
        · rw [if_pos hm, if_pos (by simp [List.mem_append, hm])]
          rfl
        · rw [if_neg hm, if_neg (by simp [List.mem_append, hm])]
          rfl
      · intro ev h
        rcases List.mem_append.mp h with h | h
        · rcases List.mem_cons.mp h with rfl | h
          · rfl
          rcases List.mem_cons.mp h with rfl | h
          · rfl
          rcases List.mem_cons.mp h with rfl | h
          · trivial
          · cases h
        · exact hok _ h
      · rw [countShadowEval_append, hcnt]
        simp [countShadowEval, isShadowEvalEvt]
      · intro _
        rw [countShadowEval_append, hcnt]
        simp [countShadowEval, isShadowEvalEvt]
  case none =>
    have hred : Rev20240925.applyTail env jt s =
        Rev20240925.applyAfterClick env jt (emit .clickShadowButton
          (tick 5 (emit (.shadowFind "button.btn.btn-primary")
            (emit (.shadowRootEval "apply-button-wc") (tick 7 (tick 7 s)))))) := by
      rw [hclick _ rfl]
      simp [Rev20240925.applyClickStep, hac]
    rw [hred]
    obtain ⟨s2, new, heq, hev, hwin, hcur, happ, hok, hcnt⟩ :=
      applyAfterClick_pipeline env jt (emit .clickShadowButton
        (tick 5 (emit (.shadowFind "button.btn.btn-primary")
          (emit (.shadowRootEval "apply-button-wc") (tick 7 (tick 7 s)))))) ow
        (by simp [tick, emit, hol]) (by simp [tick, emit]; exact hw)
    refine ⟨s2, [.shadowRootEval "apply-button-wc", .shadowFind "button.btn.btn-primary",
      .clickShadowButton] ++ new, heq, ?_, hwin, hcur, ?_, ?_, ?_, ?_⟩
    · rw [hev]
      simp [tick, emit, List.append_assoc]
    · rw [happ]
      by_cases hm : Event.clickSubmit jt ∈ new
      · rw [if_pos hm, if_pos (by simp [List.mem_append, hm])]
        rfl
      · rw [if_neg hm, if_neg (by simp [List.mem_append, hm])]
        rfl
    · intro ev h
      rcases List.mem_append.mp h with h | h
      · rcases List.mem_cons.mp h with rfl | h
        · rfl
        rcases List.mem_cons.mp h with rfl | h
        · rfl
        rcases List.mem_cons.mp h with rfl | h
        · trivial
        · cases h
      · exact hok _ h
    · rw [countShadowEval_append, hcnt]
      simp [countShadowEval, isShadowEvalEvt]
    · intro _
      rw [countShadowEval_append, hcnt]
      simp [countShadowEval, isShadowEvalEvt]

theorem tailAssemble (env : Rev20240925.AttemptEnv) (jt : String) (s st : S) (cur : Nat)
    (hstEv : st.events = s.events ++ [Event.clickTitle jt])
    (hstAp : st.applied = s.applied)
    (hol : st.owLocal = some cur)
    (hw2 : st.browser.windows = [cur] ∧ st.browser.current = cur ∨
           st.browser.windows = [cur, st.browser.current] ∧ st.browser.current ≠ cur) :
    ∃ s2 new,
      Rev20240925.applyFinally (Rev20240925.applyHandlers jt
        (Rev20240925.applyTail env jt st)) = (s2, .ok ()) ∧
      s2.events = s.events ++ new ∧
      s2.browser.windows = [cur] ∧ s2.browser.current = cur ∧
      s2.applied = (if Event.clickSubmit jt ∈ new then pySetAdd jt s.applied else s.applied) ∧
      (∀ ev ∈ new, applyEvtOk jt ev) ∧ countShadowEval new ≤ 1 ∧
      (Event.clickSubmit jt ∈ new → countShadowEval new = 1) := by
  obtain ⟨s2, new, heq, hev, hwin, hcur, happ, hok, hcnt, himp⟩ :=
    applyTail_pipeline env jt st cur hol hw2
  refine ⟨s2, Event.clickTitle jt :: new, heq, ?_, hwin, hcur, ?_, ?_, ?_, ?_⟩
  · rw [hev, hstEv]
    simp
  · rw [happ, hstAp]
    by_cases hm : Event.clickSubmit jt ∈ new
    · rw [if_pos hm, if_pos (by simp [hm])]
    · rw [if_neg hm, if_neg (by simp [hm])]
  · intro ev h
    rcases List.mem_cons.mp h with rfl | h
    · rfl
    · exact hok _ h
  · simpa [countShadowEval, isShadowEvalEvt] using hcnt
  · intro h
    rcases List.mem_cons.mp h with hbad | h
    · cases hbad
    · simpa [countShadowEval, isShadowEvalEvt] using himp h

theorem apply_to_job_run (env : Rev20240925.AttemptEnv) (jt : String) (s : S)
    (hw : s.browser.windows = [s.browser.current]) :
    ∃ s2 new, Rev20240925.apply_to_job env jt s = (s2, .ok ()) ∧
      s2.events = s.events ++ new ∧
      s2.browser.windows = [s.browser.current] ∧
      s2.browser.current = s.browser.current ∧
      s2.applied = (if Event.clickSubmit jt ∈ new then pySetAdd jt s.applied else s.applied) ∧
      (jt ∈ s.applied → new = [] ∧ s2.browser = s.browser ∧ s2.clock = s.clock ∧
        s2.applied = s.applied) ∧
      (∀ ev ∈ new, applyEvtOk jt ev) ∧ countShadowEval new ≤ 1 ∧
      (Event.clickSubmit jt ∈ new → countShadowEval new = 1) := by
  by_cases hskip : jt ∈ s.applied
  · have hred : Rev20240925.apply_to_job env jt s = ({ s with owLocal := none }, .ok ()) := by
      simp [Rev20240925.apply_to_job, Rev20240925.applyBody, hskip,
        Rev20240925.applyHandlers, Rev20240925.applyFinally, hw]
    refine ⟨{ s with owLocal := none }, [], hred, by simp, by simp [hw], by simp, ?_, ?_,
      by simp, by decide, by simp⟩
    · rw [if_neg (by simp)]
    · intro _
      exact ⟨rfl, rfl, rfl, rfl⟩
  · rcases hft : env.findTitleLink with _ | e
    swap
    · have hred : Rev20240925.apply_to_job env jt s =
          Rev20240925.applyFinally (Rev20240925.applyHandlers jt
            (tick 1 { s with owLocal := none }, .exc e)) := by
        simp [Rev20240925.apply_to_job, Rev20240925.applyBody, hskip, attempt, hft, tick]
      rw [hred]
      obtain ⟨new, heq, hok, hcnt, hsub⟩ :=
        excLeaf0 jt (tick 1 { s with owLocal := none }) e s.browser.current
          (by simp [tick, hw])
      rw [heq]
      refine ⟨_, new, rfl, by simp [tick], by simp [tick, hw], by simp [tick], ?_, ?_,
        hok, by simp [hcnt], ?_⟩
      · rw [if_neg hsub]
        simp [tick]
      · intro h
        exact absurd h hskip
      · intro h
        exact absurd h hsub
    rcases hwt : env.waitTitleClickable with _ | e
    swap
    · have hred : Rev20240925.apply_to_job env jt s =
          Rev20240925.applyFinally (Rev20240925.applyHandlers jt
            (tick 1 { s with owLocal := none }, .exc e)) := by
        simp [Rev20240925.apply_to_job, Rev20240925.applyBody, hskip, attempt, hft, hwt, tick]
      rw [hred]
      obtain ⟨new, heq, hok, hcnt, hsub⟩ :=
        excLeaf0 jt (tick 1 { s with owLocal := none }) e s.browser.current
          (by simp [tick, hw])
      rw [heq]
      refine ⟨_, new, rfl, by simp [tick], by simp [tick, hw], by simp [tick], ?_, ?_,
        hok, by simp [hcnt], ?_⟩
      · rw [if_neg hsub]
        simp [tick]
      · intro h
        exact absurd h hskip
      · intro h
        exact absurd h hsub
    cases htc : env.titleClick with
    | clickErr e =>
      by_cases hint : isInterceptedOrNI e = true
      · cases hjt : env.jsTitleClick with
        | clickErr e2 =>
          have hred : Rev20240925.apply_to_job env jt s =
              Rev20240925.applyFinally (Rev20240925.applyHandlers jt
                (tick 1 { s with owLocal := none }, .exc e2)) := by
            simp [Rev20240925.apply_to_job, Rev20240925.applyBody, hskip, attempt, hft, hwt,
              Rev20240925.titleClickStep, htc, hint, hjt, tick]
          rw [hred]
          obtain ⟨new, heq, hok, hcnt, hsub⟩ :=
            excLeaf0 jt (tick 1 { s with owLocal := none }) e2 s.browser.current
              (by simp [tick, hw])
          rw [heq]
          refine ⟨_, new, rfl, by simp [tick], by simp [tick, hw], by simp [tick], ?_, ?_,
            hok, by simp [hcnt], ?_⟩
          · rw [if_neg hsub]
            simp [tick]
          · intro h
            exact absurd h hskip
          · intro h
            exact absurd h hsub
        | clickOk opens =>
          cases opens
          · have hred : Rev20240925.apply_to_job env jt s =
                Rev20240925.applyFinally (Rev20240925.applyHandlers jt
                  (Rev20240925.applyTail env jt ({ s with
                    events := s.events ++ [.clickTitle jt]
                    clock := s.clock + 1
                    owLocal := some s.browser.current }))) := by
              simp [Rev20240925.apply_to_job, Rev20240925.applyBody, hskip, attempt, hft, hwt,
                Rev20240925.titleClickStep, htc, hint, hjt, maybeOpen,
                Rev20240925.windowSwitchStep, tick, emit, hw]
            rw [hred]
            obtain ⟨s2, new, heq, hev, hwin, hcur, happ, hok, hcnt, himp⟩ :=
              tailAssemble env jt s ({ s with
                  events := s.events ++ [.clickTitle jt]
                  clock := s.clock + 1
                  owLocal := some s.browser.current }) s.browser.current
                (by simp) rfl rfl (Or.inl ⟨by simpa using hw, rfl⟩)
            exact ⟨s2, new, heq, hev, hwin, hcur, happ,
              fun h => absurd h hskip, hok, hcnt, himp⟩
          · have hred : Rev20240925.apply_to_job env jt s =
                Rev20240925.applyFinally (Rev20240925.applyHandlers jt
                  (Rev20240925.applyTail env jt ({ s with
                    events := s.events ++ [.clickTitle jt]
                    clock := s.clock + 1
                    owLocal := some s.browser.current
                    browser := { s.browser with
                      windows := [s.browser.current, s.browser.current + 1]
                      current := s.browser.current + 1 } }))) := by
              simp [Rev20240925.apply_to_job, Rev20240925.applyBody, hskip, attempt, hft, hwt,
                Rev20240925.titleClickStep, htc, hint, hjt, maybeOpen, openNewWindow,
                freshHandle, Rev20240925.windowSwitchStep, switchToWindow, tick, emit, hw,
                List.filter_cons, Nat.max_zero]
            rw [hred]
            obtain ⟨s2, new, heq, hev, hwin, hcur, happ, hok, hcnt, himp⟩ :=
              tailAssemble env jt s ({ s with
                  events := s.events ++ [.clickTitle jt]
                  clock := s.clock + 1
                  owLocal := some s.browser.current
                  browser := { s.browser with
                    windows := [s.browser.current, s.browser.current + 1]
                    current := s.browser.current + 1 } }) s.browser.current
                (by simp) rfl rfl (Or.inr ⟨rfl, by simp⟩)
            exact ⟨s2, new, heq, hev, hwin, hcur, happ,
              fun h => absurd h hskip, hok, hcnt, himp⟩
      · have hred : Rev20240925.apply_to_job env jt s =
            Rev20240925.applyFinally (Rev20240925.applyHandlers jt
              (tick 1 { s with owLocal := none }, .exc e)) := by
          simp [Rev20240925.apply_to_job, Rev20240925.applyBody, hskip, attempt, hft, hwt,
            Rev20240925.titleClickStep, htc, hint, tick]
        rw [hred]
        obtain ⟨new, heq, hok, hcnt, hsub⟩ :=
          excLeaf0 jt (tick 1 { s with owLocal := none }) e s.browser.current
            (by simp [tick, hw])
        rw [heq]
        refine ⟨_, new, rfl, by simp [tick], by simp [tick, hw], by simp [tick], ?_, ?_,
          hok, by simp [hcnt], ?_⟩
        · rw [if_neg hsub]
          simp [tick]
        · intro h
          exact absurd h hskip
        · intro h
          exact absurd h hsub
    | clickOk opens =>
      cases opens
      · have hred : Rev20240925.apply_to_job env jt s =
            Rev20240925.applyFinally (Rev20240925.applyHandlers jt
              (Rev20240925.applyTail env jt ({ s with
                events := s.events ++ [.clickTitle jt]
                clock := s.clock + 1
                owLocal := some s.browser.current }))) := by
          simp [Rev20240925.apply_to_job, Rev20240925.applyBody, hskip, attempt, hft, hwt,
            Rev20240925.titleClickStep, htc, maybeOpen,
            Rev20240925.windowSwitchStep, tick, emit, hw]
        rw [hred]
        obtain ⟨s2, new, heq, hev, hwin, hcur, happ, hok, hcnt, himp⟩ :=
          tailAssemble env jt s ({ s with
              events := s.events ++ [.clickTitle jt]
              clock := s.clock + 1
              owLocal := some s.browser.current }) s.browser.current
            (by simp) rfl rfl (Or.inl ⟨by simpa using hw, rfl⟩)
        exact ⟨s2, new, heq, hev, hwin, hcur, happ,
          fun h => absurd h hskip, hok, hcnt, himp⟩
      · have hred : Rev20240925.apply_to_job env jt s =
            Rev20240925.applyFinally (Rev20240925.applyHandlers jt
              (Rev20240925.applyTail env jt ({ s with
                events := s.events ++ [.clickTitle jt]
                clock := s.clock + 1
                owLocal := some s.browser.current
                browser := { s.browser with
                  windows := [s.browser.current, s.browser.current + 1]
                  current := s.browser.current + 1 } }))) := by
          simp [Rev20240925.apply_to_job, Rev20240925.applyBody, hskip, attempt, hft, hwt,
            Rev20240925.titleClickStep, htc, maybeOpen, openNewWindow,
            freshHandle, Rev20240925.windowSwitchStep, switchToWindow, tick, emit, hw,
            List.filter_cons, Nat.max_zero]
        rw [hred]
        obtain ⟨s2, new, heq, hev, hwin, hcur, happ, hok, hcnt, himp⟩ :=
          tailAssemble env jt s ({ s with
              events := s.events ++ [.clickTitle jt]
              clock := s.clock + 1
              owLocal := some s.browser.current
              browser := { s.browser with
                windows := [s.browser.current, s.browser.current + 1]
                current := s.browser.current + 1 } }) s.browser.current
            (by simp) rfl rfl (Or.inr ⟨rfl, by simp⟩)
        exact ⟨s2, new, heq, hev, hwin, hcur, happ,
          fun h => absurd h hskip, hok, hcnt, himp⟩

theorem applyEvtOk_loopEvtOk (minP maxP : Int) (jt : String) (ev : Event)
    (h : applyEvtOk jt ev) : loopEvtOk minP maxP ev := by
  cases ev <;> first
    | trivial
    | exact h

theorem mainLoop_run (minP maxP : Int) (cards : List Rev20240925.CardEnv) (idx : Nat)
    (s : S) (hw : s.browser.windows = [s.browser.current]) :
    ∃ s2 r new, Rev20240925.mainLoop minP maxP cards idx s = (s2, r) ∧
      s2.events = s.events ++ new ∧
      s2.browser.windows = [s.browser.current] ∧
      s2.browser.current = s.browser.current ∧
      (∀ ev ∈ new, loopEvtOk minP maxP ev) ∧
      (minP ≤ maxP →
        (∀ c ∈ cards, c.titleLookup = none ∨ c.titleLookup = some .noSuchElement) →
        r = .ok () ∧ ∀ i < cards.length, Event.processCard (idx + i) ∈ new) := by
  induction cards generalizing idx s with
  | nil =>
      exact ⟨s, .ok (), [], rfl, by simp, hw, rfl, by simp, fun _ _ => ⟨rfl, by simp⟩⟩
  | cons c rest ih =>
      rcases htl : c.titleLookup with _ | e
      · obtain ⟨sA, newA, heqA, hevA, hwinA, hcurA, _happA, _hsk, hokA, _hcntA, _himpA⟩ :=
          apply_to_job_run c.attemptEnv (pyStrip c.titleText)
            (emit (.processCard idx) s) (by simpa [emit] using hw)
        have hwA : sA.browser.windows = [sA.browser.current] := by
          rw [hwinA, hcurA]
        by_cases hmn : minP ≤ maxP
        · obtain ⟨s2, r, new2, heq2, hev2, hwin2, hcur2, hok2, hcond2⟩ :=
            ih (idx + 1)
              (tick (randint minP maxP c.rand).toNat
                (emit (.pauseBetween (randint minP maxP c.rand)) sA))
              (by simpa [tick, emit] using hwA)
          have hstep : Rev20240925.mainLoop minP maxP (c :: rest) idx s = (s2, r) := by
            simp only [Rev20240925.mainLoop, htl, heqA, randintE, hmn, if_true, heq2]
          refine ⟨s2, r, Event.processCard idx :: (newA ++ Event.pauseBetween
            (randint minP maxP c.rand) :: new2), hstep, ?_, ?_, ?_, ?_, ?_⟩
          · rw [hev2]
            simp only [tick, emit, hevA]
            simp [emit, List.append_assoc]
          · rw [hwin2]
            simp [tick, emit, hwinA, hcurA]
          · rw [hcur2]
            simp [tick, emit, hcurA]
          · intro ev h
            rcases List.mem_cons.mp h with rfl | h
            · trivial
            rcases List.mem_append.mp h with h | h
            · exact applyEvtOk_loopEvtOk minP maxP _ _ (hokA _ h)
            rcases List.mem_cons.mp h with rfl | h
            · exact ⟨c.rand, rfl⟩
            · exact hok2 _ h
          · intro hmn2 hcards
            obtain ⟨hr, hproc2⟩ := hcond2 hmn2 fun x hx => hcards x (by simp [hx])
            refine ⟨hr, ?_⟩
            intro i hi
            cases i with
            | zero => simp
            | succ j =>
                have hj : Event.processCard (idx + 1 + j) ∈ new2 :=
                  hproc2 j (by simpa using hi)
                have : idx + (j + 1) = idx + 1 + j := by omega
                rw [this]
                simp only [List.mem_cons, List.mem_append]
                exact Or.inr (Or.inr (Or.inr hj))
        · have hstep : Rev20240925.mainLoop minP maxP (c :: rest) idx s =
              (sA, .exc .valueErr) := by
            simp only [Rev20240925.mainLoop, htl, heqA, randintE, hmn, if_false]
          refine ⟨sA, .exc .valueErr, Event.processCard idx :: newA, hstep, ?_, ?_, ?_,
            ?_, ?_⟩
          · rw [hevA]
            simp [emit]
          · rw [hwinA]
            simp [emit]
          · rw [hcurA]
            simp [emit]
          · intro ev h
            rcases List.mem_cons.mp h with rfl | h
            · trivial
            · exact applyEvtOk_loopEvtOk minP maxP _ _ (hokA _ h)
          · intro hmn2 _
            exact absurd hmn2 hmn
      · by_cases hnse : e = PyExc.noSuchElement
        · subst hnse
          obtain ⟨s2, r, new2, heq2, hev2, hwin2, hcur2, hok2, hcond2⟩ :=
            ih (idx + 1)
              (Rev20240925.capture_screenshot ("job_" ++ toString idx ++ "_no_title")
                "job_card_errors" (emit (.processCard idx) s))
              (by simpa [Rev20240925.capture_screenshot, Rev20240925.create_directory, emit]
                using hw)
          have hstep : Rev20240925.mainLoop minP maxP (c :: rest) idx s = (s2, r) := by
            simp only [Rev20240925.mainLoop, htl, if_true, heq2]
          refine ⟨s2, r, Event.processCard idx ::
            (Event.dirCreate ("screenshots/" ++ "job_card_errors") ::
             Event.screenshotSave ("screenshots/" ++ ("job_card_errors" ++ "/" ++
               ("screenshot_" ++ sanitize_title ("job_" ++ toString idx ++ "_no_title") ++
                 "_" ++ toString s.clock ++ ".png"))) :: new2),
            hstep, ?_, ?_, ?_, ?_, ?_⟩
          · rw [hev2]
            simp [Rev20240925.capture_screenshot, Rev20240925.create_directory, emit,
              List.append_assoc]
          · rw [hwin2]
            simp [Rev20240925.capture_screenshot, Rev20240925.create_directory, emit, hw]
          · rw [hcur2]
            simp [Rev20240925.capture_screenshot, Rev20240925.create_directory, emit]
          · intro ev h
            rcases List.mem_cons.mp h with rfl | h
            · trivial
            rcases List.mem_cons.mp h with rfl | h
            · exact dirOk_build _
            rcases List.mem_cons.mp h with rfl | h
            · exact ⟨dirOk_build _, pngOk_shape _ _⟩
            · exact hok2 _ h
          · intro hmn2 hcards
            obtain ⟨hr, hproc2⟩ := hcond2 hmn2 fun x hx => hcards x (by simp [hx])
            refine ⟨hr, ?_⟩
            intro i hi
            cases i with
            | zero => simp
            | succ j =>
                have hj : Event.processCard (idx + 1 + j) ∈ new2 :=
                  hproc2 j (by simpa using hi)
                have : idx + (j + 1) = idx + 1 + j := by omega
                rw [this]
                simp only [List.mem_cons]
                exact Or.inr (Or.inr (Or.inr hj))
        · have hstep : Rev20240925.mainLoop minP maxP (c :: rest) idx s =
              (emit (.processCard idx) s, .exc e) := by
            simp only [Rev20240925.mainLoop, htl]
            simp [hnse]
          refine ⟨emit (.processCard idx) s, .exc e, [Event.processCard idx], hstep,
            by simp [emit], by simp [emit, hw], by simp [emit], ?_, ?_⟩
          · intro ev h
            rcases List.mem_cons.mp h with rfl | h
            · trivial
            · cases h
          · intro _ hcards
            rcases hcards c (by simp) with hbad | hbad
            · rw [htl] at hbad
              cases hbad
            · rw [htl] at hbad
              exact absurd (Option.some.inj hbad) hnse

theorem loopEvtOk_mainEvtOk (minP maxP : Int) (ev : Event)
    (h : loopEvtOk minP maxP ev) : mainEvtOk ev := by
  cases ev <;> first
    | trivial
    | exact h

theorem searchUrl_contains (terms : String) :
    strHasSub (Rev20240925.searchUrl terms) Rev20240925.easyParam = true := by
  have hsplit : ("&pageSize=1000&filters.workplaceTypes=Remote&filters.easyApply=true" : String) =
      "&pageSize=1000&filters.workplaceTypes=Remote&" ++ "filters.easyApply=true" := rfl
  unfold Rev20240925.searchUrl
  rw [hsplit]
  simp only [strHasSub, Rev20240925.easyParam, String.data_append]
  exact hasSubAux_append_left _ _ _ (hasSubAux_append_left _ _ _
    (hasSubAux_append_left _ _ _ (hasSubAux_self _)))

theorem homeUrl_no_filter :
    strHasSub "https://www.dice.com/" Rev20240925.easyParam = false := by
  decide

theorem mainRun_master (terms : String) (minP maxP : Int) (env : Rev20240925.MainEnv)
    (s : S) (hw : s.browser.windows = [s.browser.current]) :
    ∃ s2 r new,
      Rev20240925.mainRun terms minP maxP env s = (s2, r) ∧
      s2.events = s.events ++ new ∧
      (∀ e ∈ new, mainEvtOk e) ∧
      (∀ d, Event.pauseBetween d ∈ new → ∃ rr, d = randint minP maxP rr) ∧
      precedes isSearchClickEvt isFilterEvt new = true ∧
      precedes isFilterEvt isLoopStartEvt new = true := by
  rcases hsf : env.searchFieldWait with _ | e
  swap
  · refine ⟨emit .quitDriver (Rev20240925.capture_screenshot "main_exception" "main_errors"
      (setUrl "https://www.dice.com/" (emit (.navigate "https://www.dice.com/") s))), .ok (), [.navigate "https://www.dice.com/",
      .dirCreate ("screenshots/" ++ "main_errors"),
      .screenshotSave ("screenshots/" ++ ("main_errors" ++ "/" ++
        ("screenshot_" ++ sanitize_title "main_exception" ++ "_" ++
          toString s.clock ++ ".png"))),
      .quitDriver], ?_, ?_, ?_, ?_, rfl, rfl⟩
    · show Rev20240925.mainRun terms minP maxP env s = _
      simp [Rev20240925.mainRun, Rev20240925.mainBody, attempt, hsf,
        Rev20240925.capture_screenshot, Rev20240925.create_directory, setUrl, emit]
    · simp [emit, Rev20240925.capture_screenshot, Rev20240925.create_directory, setUrl,
        List.append_assoc]
    · intro ev h
      rcases List.mem_cons.mp h with rfl | h
      · trivial
      rcases List.mem_cons.mp h with rfl | h
      · exact dirOk_build _
      rcases List.mem_cons.mp h with rfl | h
      · exact ⟨dirOk_build _, pngOk_shape _ _⟩
      rcases List.mem_cons.mp h with rfl | h
      · trivial
      · cases h
    · intro d h
      simp at h
  rcases hsb : env.searchButtonFind with _ | e
  swap
  · refine ⟨emit .quitDriver (Rev20240925.capture_screenshot "main_exception" "main_errors"
      (setUrl "https://www.dice.com/" (emit (.navigate "https://www.dice.com/") s))), .ok (), [.navigate "https://www.dice.com/",
      .dirCreate ("screenshots/" ++ "main_errors"),
      .screenshotSave ("screenshots/" ++ ("main_errors" ++ "/" ++
        ("screenshot_" ++ sanitize_title "main_exception" ++ "_" ++
          toString s.clock ++ ".png"))),
      .quitDriver], ?_, ?_, ?_, ?_, rfl, rfl⟩
    · show Rev20240925.mainRun terms minP maxP env s = _
      simp [Rev20240925.mainRun, Rev20240925.mainBody, attempt, hsf, hsb,
        Rev20240925.capture_screenshot, Rev20240925.create_directory, setUrl, emit]
    · simp [emit, Rev20240925.capture_screenshot, Rev20240925.create_directory, setUrl,
        List.append_assoc]
    · intro ev h
      rcases List.mem_cons.mp h with rfl | h
      · trivial
      rcases List.mem_cons.mp h with rfl | h
      · exact dirOk_build _
      rcases List.mem_cons.mp h with rfl | h
      · exact ⟨dirOk_build _, pngOk_shape _ _⟩
      rcases List.mem_cons.mp h with rfl | h
      · trivial
      · cases h
    · intro d h
      simp at h
  rcases hsc : env.searchButtonClick with _ | e
  swap
  · refine ⟨emit .quitDriver (Rev20240925.capture_screenshot "main_exception" "main_errors"
      (setUrl "https://www.dice.com/" (emit (.navigate "https://www.dice.com/") s))), .ok (), [.navigate "https://www.dice.com/",
      .dirCreate ("screenshots/" ++ "main_errors"),
      .screenshotSave ("screenshots/" ++ ("main_errors" ++ "/" ++
        ("screenshot_" ++ sanitize_title "main_exception" ++ "_" ++
          toString s.clock ++ ".png"))),
      .quitDriver], ?_, ?_, ?_, ?_, rfl, rfl⟩
    · show Rev20240925.mainRun terms minP maxP env s = _
      simp [Rev20240925.mainRun, Rev20240925.mainBody, attempt, attemptE, hsf, hsb, hsc,
        Rev20240925.capture_screenshot, Rev20240925.create_directory, setUrl, emit]
    · simp [emit, Rev20240925.capture_screenshot, Rev20240925.create_directory, setUrl,
        List.append_assoc]
    · intro ev h
      rcases List.mem_cons.mp h with rfl | h
      · trivial
      rcases List.mem_cons.mp h with rfl | h
      · exact dirOk_build _
      rcases List.mem_cons.mp h with rfl | h
      · exact ⟨dirOk_build _, pngOk_shape _ _⟩
      rcases List.mem_cons.mp h with rfl | h
      · trivial
      · cases h
    · intro d h
      simp at h
  rcases hlw : env.filterEnv.listingsWait with _ | e
  swap
  · refine ⟨emit .quitDriver (emit .quitDriver
      (Rev20240925.capture_screenshot (if isNoSuchOrTimeout e then
          "error_activating_easy_apply_filter"
        else "unexpected_error_easy_apply_filter") "filters"
        (setUrl (Rev20240925.searchUrl terms) (emit (.navigate (Rev20240925.searchUrl terms))
        (emit .searchClick (setUrl "https://www.dice.com/"
          (emit (.navigate "https://www.dice.com/") s))))))), .exited 1,
      [.navigate "https://www.dice.com/", .searchClick,
      .navigate (Rev20240925.searchUrl terms),
      .dirCreate ("screenshots/" ++ "filters"),
      .screenshotSave ("screenshots/" ++ ("filters" ++ "/" ++
        ("screenshot_" ++ sanitize_title (if isNoSuchOrTimeout e then
            "error_activating_easy_apply_filter"
          else "unexpected_error_easy_apply_filter") ++ "_" ++
          toString s.clock ++ ".png"))),
      .quitDriver, .quitDriver], ?_, ?_, ?_, ?_, rfl, rfl⟩
    · show Rev20240925.mainRun terms minP maxP env s = _
      simp [Rev20240925.mainRun, Rev20240925.mainBody, attempt, attemptE, hsf, hsb, hsc,
        Rev20240925.activate_easy_apply_filter, Rev20240925.activateBody,
        homeUrl_no_filter, hlw,
        Rev20240925.capture_screenshot, Rev20240925.create_directory, setUrl, emit]
    · simp [emit, Rev20240925.capture_screenshot, Rev20240925.create_directory, setUrl,
        List.append_assoc]
    · intro ev h
      rcases List.mem_cons.mp h with rfl | h
      · trivial
      rcases List.mem_cons.mp h with rfl | h
      · trivial
      rcases List.mem_cons.mp h with rfl | h
      · trivial
      rcases List.mem_cons.mp h with rfl | h
      · exact dirOk_build _
      rcases List.mem_cons.mp h with rfl | h
      · exact ⟨dirOk_build _, pngOk_shape _ _⟩
      rcases List.mem_cons.mp h with rfl | h
      · trivial
      rcases List.mem_cons.mp h with rfl | h
      · trivial
      · cases h
    · intro d h
      simp at h
  obtain ⟨s2, rL, newL, heqL, hevL, hwinL, hcurL, hokL, _hcond⟩ :=
    mainLoop_run minP maxP env.cards 1
      ({ s with
          browser := { s.browser with url := Rev20240925.searchUrl terms }
          events := s.events ++ [.navigate "https://www.dice.com/", .searchClick,
            .navigate (Rev20240925.searchUrl terms), .filterActivated]
          clock := s.clock + 3 })
      (by simpa using hw)
  have hA4 : ∀ ev ∈ ([.navigate "https://www.dice.com/", .searchClick,
      .navigate (Rev20240925.searchUrl terms), .filterActivated] : List Event),
      mainEvtOk ev := by
    intro ev h
    rcases List.mem_cons.mp h with rfl | h
    · trivial
    rcases List.mem_cons.mp h with rfl | h
    · trivial
    rcases List.mem_cons.mp h with rfl | h
    · trivial
    rcases List.mem_cons.mp h with rfl | h
    · trivial
    · cases h
  have hA2f : ∀ ev ∈ ([.navigate "https://www.dice.com/", .searchClick] : List Event),
      isFilterEvt ev = false := by
    intro ev h
    rcases List.mem_cons.mp h with rfl | h
    · rfl
    rcases List.mem_cons.mp h with rfl | h
    · rfl
    · cases h
  have hA4l : ∀ ev ∈ ([.navigate "https://www.dice.com/", .searchClick,
      .navigate (Rev20240925.searchUrl terms), .filterActivated] : List Event),
      isLoopStartEvt ev = false := by
    intro ev h
    rcases List.mem_cons.mp h with rfl | h
    · rfl
    rcases List.mem_cons.mp h with rfl | h
    · rfl
    rcases List.mem_cons.mp h with rfl | h
    · rfl
    rcases List.mem_cons.mp h with rfl | h
    · rfl
    · cases h
  rcases rL with u | e | c
  · obtain rfl : u = () := rfl
    refine ⟨emit .quitDriver s2, .ok (), [.navigate "https://www.dice.com/", .searchClick,
      .navigate (Rev20240925.searchUrl terms), .filterActivated] ++ (newL ++ [.quitDriver]),
      ?_, ?_, ?_, ?_, ?_, ?_⟩
    · show Rev20240925.mainRun terms minP maxP env s = _
      simp only [Rev20240925.mainRun, Rev20240925.mainBody, attempt, attemptE, hsf, hsb, hsc,
        Rev20240925.activate_easy_apply_filter, Rev20240925.activateBody,
        homeUrl_no_filter, hlw, setUrl, emit, tick, Bool.false_eq_true, if_false,
        List.append_assoc, List.cons_append, List.nil_append, List.singleton_append]
      rw [heqL]
    · rw [emit, hevL]
      simp [List.append_assoc]
    · intro ev h
      rcases List.mem_append.mp h with h | h
      · exact hA4 _ h
      rcases List.mem_append.mp h with h | h
      · exact loopEvtOk_mainEvtOk minP maxP _ (hokL _ h)
      rcases List.mem_cons.mp h with rfl | h
      · trivial
      · cases h
    · intro d h
      rcases List.mem_append.mp h with h | h
      · simp at h
      rcases List.mem_append.mp h with h | h
      · exact hokL _ h
      · simp at h
    · exact precedes_append isSearchClickEvt isFilterEvt
        [.navigate "https://www.dice.com/", .searchClick]
        ([.navigate (Rev20240925.searchUrl terms), .filterActivated] ++
          (newL ++ [.quitDriver]))
        hA2f (Or.inl rfl)
    · exact precedes_append isFilterEvt isLoopStartEvt
        [.navigate "https://www.dice.com/", .searchClick,
          .navigate (Rev20240925.searchUrl terms), .filterActivated]
        (newL ++ [.quitDriver])
        hA4l (Or.inl rfl)
  · refine ⟨emit .quitDriver (Rev20240925.capture_screenshot "main_exception"
      "main_errors" s2), .ok (), [.navigate "https://www.dice.com/", .searchClick,
      .navigate (Rev20240925.searchUrl terms), .filterActivated] ++ (newL ++
      [.dirCreate ("screenshots/" ++ "main_errors"),
       .screenshotSave ("screenshots/" ++ ("main_errors" ++ "/" ++
         ("screenshot_" ++ sanitize_title "main_exception" ++ "_" ++
           toString s2.clock ++ ".png"))),
       .quitDriver]),
      ?_, ?_, ?_, ?_, ?_, ?_⟩
    · show Rev20240925.mainRun terms minP maxP env s = _
      simp only [Rev20240925.mainRun, Rev20240925.mainBody, attempt, attemptE, hsf, hsb, hsc,
        Rev20240925.activate_easy_apply_filter, Rev20240925.activateBody,
        homeUrl_no_filter, hlw, setUrl, emit, tick, Bool.false_eq_true, if_false,
        List.append_assoc, List.cons_append, List.nil_append, List.singleton_append]
      rw [heqL]
    · rw [emit]
      simp [Rev20240925.capture_screenshot, Rev20240925.create_directory, emit, hevL,
        List.append_assoc]
    · intro ev h
      rcases List.mem_append.mp h with h | h
      · exact hA4 _ h
      rcases List.mem_append.mp h with h | h
      · exact loopEvtOk_mainEvtOk minP maxP _ (hokL _ h)
      rcases List.mem_cons.mp h with rfl | h
      · exact dirOk_build _
      rcases List.mem_cons.mp h with rfl | h
      · exact ⟨dirOk_build _, pngOk_shape _ _⟩
      rcases List.mem_cons.mp h with rfl | h
      · trivial
      · cases h
    · intro d h
      rcases List.mem_append.mp h with h | h
      · simp at h
      rcases List.mem_append.mp h with h | h
      · exact hokL _ h
      · simp at h
    · exact precedes_append isSearchClickEvt isFilterEvt
        [.navigate "https://www.dice.com/", .searchClick]
        ([.navigate (Rev20240925.searchUrl terms), .filterActivated] ++
          (newL ++ [.dirCreate ("screenshots/" ++ "main_errors"),
           .screenshotSave ("screenshots/" ++ ("main_errors" ++ "/" ++
             ("screenshot_" ++ sanitize_title "main_exception" ++ "_" ++
               toString s2.clock ++ ".png"))),
           .quitDriver]))
        hA2f (Or.inl rfl)
    · exact precedes_append isFilterEvt isLoopStartEvt
        [.navigate "https://www.dice.com/", .searchClick,
          .navigate (Rev20240925.searchUrl terms), .filterActivated]
        (newL ++ [.dirCreate ("screenshots/" ++ "main_errors"),
          .screenshotSave ("screenshots/" ++ ("main_errors" ++ "/" ++
            ("screenshot_" ++ sanitize_title "main_exception" ++ "_" ++
              toString s2.clock ++ ".png"))),
          .quitDriver])
        hA4l (Or.inl rfl)
  · refine ⟨emit .quitDriver s2, .exited c, [.navigate "https://www.dice.com/", .searchClick,
      .navigate (Rev20240925.searchUrl terms), .filterActivated] ++ (newL ++ [.quitDriver]),
      ?_, ?_, ?_, ?_, ?_, ?_⟩
    · show Rev20240925.mainRun terms minP maxP env s = _
      simp only [Rev20240925.mainRun, Rev20240925.mainBody, attempt, attemptE, hsf, hsb, hsc,
        Rev20240925.activate_easy_apply_filter, Rev20240925.activateBody,
        homeUrl_no_filter, hlw, setUrl, emit, tick, Bool.false_eq_true, if_false,
        List.append_assoc, List.cons_append, List.nil_append, List.singleton_append]
      rw [heqL]
    · rw [emit, hevL]
      simp [List.append_assoc]
    · intro ev h
      rcases List.mem_append.mp h with h | h
      · exact hA4 _ h
      rcases List.mem_append.mp h with h | h
      · exact loopEvtOk_mainEvtOk minP maxP _ (hokL _ h)
      rcases List.mem_cons.mp h with rfl | h
      · trivial
      · cases h
    · intro d h
      rcases List.mem_append.mp h with h | h
      · simp at h
      rcases List.mem_append.mp h with h | h
      · exact hokL _ h
      · simp at h
    · exact precedes_append isSearchClickEvt isFilterEvt
        [.navigate "https://www.dice.com/", .searchClick]
        ([.navigate (Rev20240925.searchUrl terms), .filterActivated] ++
          (newL ++ [.quitDriver]))
        hA2f (Or.inl rfl)
    · exact precedes_append isFilterEvt isLoopStartEvt
        [.navigate "https://www.dice.com/", .searchClick,
          .navigate (Rev20240925.searchUrl terms), .filterActivated]
        (newL ++ [.quitDriver])
        hA4l (Or.inl rfl)

theorem mainEvtOk_no_login (ev : Event) (h : mainEvtOk ev) : isLoginEvt ev = false := by
  cases ev <;> first
    | rfl
    | exact h.elim

theorem mainEvtOk_no_upload (ev : Event) (h : mainEvtOk ev) : isUploadEvt ev = false := by
  cases ev <;> first
    | rfl
    | exact h.elim

theorem moduleInit_run (cfg : Rev20240925.IniConfig) (launch : Option PyExc) (s : S) :
    (∃ r, Rev20240925.moduleInit cfg launch s = (s, r) ∧
      ∀ ctx, r ≠ Outcome.ok ctx) ∨
    (∃ ctx, Rev20240925.moduleInit cfg launch s = (emit .browserLaunch s, .ok ctx)) := by
  unfold Rev20240925.moduleInit
  repeat' split
  all_goals first
    | exact Or.inl ⟨_, rfl, fun ctx => by simp⟩
    | exact Or.inr ⟨_, rfl⟩

theorem rev0_apply_run (resumePath jobLink : String) (env : Rev20240920.ApplyEnv) (s : S) :
    ∃ s2 new, Rev20240920.apply_to_job resumePath jobLink env s = (s2, .ok ()) ∧
      s2.events = s.events ++ new ∧
      precedes isUploadEvt isSubmitEvt new = true ∧
      (∀ p, Event.uploadResume p ∈ new → p = resumePath) := by
  rcases h1 : env.findEasyApply with _ | e
  swap
  · refine ⟨emit .logWrite (tick 2 (setUrl jobLink (emit (.navigate jobLink) s))),
      [.navigate jobLink, .logWrite], ?_, by simp [emit, tick, setUrl], rfl, ?_⟩
    · simp [Rev20240920.apply_to_job, attempt, h1, emit, tick, setUrl]
    · intro p h
      simp at h
  rcases h2 : env.applyClick with _ | e
  swap
  · refine ⟨emit .logWrite (tick 2 (setUrl jobLink (emit (.navigate jobLink) s))),
      [.navigate jobLink, .logWrite], ?_, by simp [emit, tick, setUrl], rfl, ?_⟩
    · simp [Rev20240920.apply_to_job, attempt, h1, h2, emit, tick, setUrl]
    · intro p h
      simp at h
  rcases h3 : env.findUpload with _ | e
  swap
  · refine ⟨emit .logWrite (tick 2 (tick 2 (setUrl jobLink (emit (.navigate jobLink) s)))),
      [.navigate jobLink, .logWrite], ?_, by simp [emit, tick, setUrl], rfl, ?_⟩
    · simp [Rev20240920.apply_to_job, attempt, h1, h2, h3, emit, tick, setUrl]
    · intro p h
      simp at h
  rcases h4 : env.sendResume with _ | e
  swap
  · refine ⟨emit .logWrite (tick 2 (tick 2 (setUrl jobLink (emit (.navigate jobLink) s)))),
      [.navigate jobLink, .logWrite], ?_, by simp [emit, tick, setUrl], rfl, ?_⟩
    · simp [Rev20240920.apply_to_job, attempt, attemptE, h1, h2, h3, h4, emit, tick, setUrl]
    · intro p h
      simp at h
  rcases h5 : env.findSubmit with _ | e
  swap
  · refine ⟨emit .logWrite (tick 2 (emit (.uploadResume resumePath)
        (tick 2 (tick 2 (setUrl jobLink (emit (.navigate jobLink) s)))))),
      [.navigate jobLink, .uploadResume resumePath, .logWrite], ?_,
      by simp [emit, tick, setUrl, List.append_assoc], rfl, ?_⟩
    · simp [Rev20240920.apply_to_job, attempt, attemptE, h1, h2, h3, h4, h5, emit, tick,
        setUrl, List.append_assoc]
    · intro p h
      simp at h
      exact h
  rcases h6 : env.submitClick with _ | e
  swap
  · refine ⟨emit .logWrite (tick 2 (emit (.uploadResume resumePath)
        (tick 2 (tick 2 (setUrl jobLink (emit (.navigate jobLink) s)))))),
      [.navigate jobLink, .uploadResume resumePath, .logWrite], ?_,
      by simp [emit, tick, setUrl, List.append_assoc], rfl, ?_⟩
    · simp [Rev20240920.apply_to_job, attempt, attemptE, h1, h2, h3, h4, h5, h6, emit,
        tick, setUrl, List.append_assoc]
    · intro p h
      simp at h
      exact h
  · refine ⟨emit .logWrite (emit (.clickSubmit jobLink) (tick 2 (emit (.uploadResume resumePath)
        (tick 2 (tick 2 (setUrl jobLink (emit (.navigate jobLink) s))))))),
      [.navigate jobLink, .uploadResume resumePath, .clickSubmit jobLink, .logWrite], ?_,
      by simp [emit, tick, setUrl, List.append_assoc], rfl, ?_⟩
    · simp [Rev20240920.apply_to_job, attempt, attemptE, h1, h2, h3, h4, h5, h6, emit,
        tick, setUrl, List.append_assoc]
    · intro p h
      simp at h
      exact h

/-- Claim C8, counterexample: sanitize_title does not strip trailing
underscores, contrary to the claim; on the input "a_" the code keeps
the underscore while the claimed behaviour (modelled by
sanitize_title_claimC8) would strip it. -/
theorem c8_counterexample :
    sanitize_title "a_" = "a_" ∧ sanitize_title_claimC8 "a_" = "a" ∧
    ("a_" : String) ≠ "a" := by
  refine ⟨?_, ?_, by decide⟩ <;> decide

/-- Claim C8, amended: sanitize_title is a pure function whose result
consists only of alphanumeric characters and underscores; every other
character is removed, trailing whitespace among the kept characters is
stripped (trailing underscores are kept), and each remaining space is
replaced by an underscore. -/
theorem c8_sanitize_title_range (t : String) :
    ∀ c ∈ (sanitize_title t).data, pyIsAlnum c = true ∨ c = '_' :=
  sanitize_title_chars t

/-- Claim C5: if activate_easy_apply_filter returns normally the
current URL contains filters.easyApply=true, and when the URL already
contains it the browser is left unchanged; if the wait for the
listings raises NoSuchElementException or TimeoutException the
function does not return normally: it captures a screenshot, quits the
driver, and the process exits with status 1. -/
theorem c5_filter_postcondition (terms : String) (env : Rev20240925.FilterEnv) (s : S) :
    (∀ s2, Rev20240925.activate_easy_apply_filter terms env s = (s2, .ok ()) →
      strHasSub s2.browser.url Rev20240925.easyParam = true ∧
      (strHasSub s.browser.url Rev20240925.easyParam = true → s2.browser = s.browser)) ∧
    (∀ e, strHasSub s.browser.url Rev20240925.easyParam = false →
      env.listingsWait = some e →
      e = PyExc.noSuchElement ∨ e = PyExc.timeoutExc →
      ∃ s2, Rev20240925.activate_easy_apply_filter terms env s = (s2, .exited 1) ∧
        Event.quitDriver ∈ s2.events ∧ (∃ p, Event.screenshotSave p ∈ s2.events)) := by
  by_cases hsub : strHasSub s.browser.url Rev20240925.easyParam = true
  · have hred : Rev20240925.activate_easy_apply_filter terms env s =
        (emit .filterActivated s, .ok ()) := by
      simp [Rev20240925.activate_easy_apply_filter, Rev20240925.activateBody, hsub]
    constructor
    · intro s2 heq
      rw [hred] at heq
      obtain ⟨h1, _⟩ := Prod.mk.injEq .. ▸ heq
      constructor
      · rw [← h1]
        simpa [emit] using hsub
      · intro _
        rw [← h1]
        rfl
    · intro e hfalse
      rw [hsub] at hfalse
      cases hfalse
  · have hsub' : strHasSub s.browser.url Rev20240925.easyParam = false := by
      simpa using hsub
    rcases hlw : env.listingsWait with _ | e
    · have hred : Rev20240925.activate_easy_apply_filter terms env s =
          (emit .filterActivated (setUrl (Rev20240925.searchUrl terms)
            (emit (.navigate (Rev20240925.searchUrl terms)) s)), .ok ()) := by
        simp [Rev20240925.activate_easy_apply_filter, Rev20240925.activateBody, hsub',
          attempt, hlw]
      constructor
      · intro s2 heq
        rw [hred] at heq
        obtain ⟨h1, _⟩ := Prod.mk.injEq .. ▸ heq
        constructor
        · rw [← h1]
          simpa [emit, setUrl] using searchUrl_contains terms
        · intro hctr
          rw [hctr] at hsub'
          cases hsub'
      · intro e hfalse heq
        cases heq
    · have hred : Rev20240925.activate_easy_apply_filter terms env s =
          (emit .quitDriver (Rev20240925.capture_screenshot
            (if isNoSuchOrTimeout e then "error_activating_easy_apply_filter"
             else "unexpected_error_easy_apply_filter") "filters"
            (setUrl (Rev20240925.searchUrl terms)
              (emit (.navigate (Rev20240925.searchUrl terms)) s))), .exited 1) := by
        simp [Rev20240925.activate_easy_apply_filter, Rev20240925.activateBody, hsub',
          attempt, hlw]
      constructor
      · intro s2 heq
        rw [hred] at heq
        obtain ⟨_, h2⟩ := Prod.mk.injEq .. ▸ heq
        cases h2
      · intro e2 _ heq _
        obtain rfl := Option.some.inj heq.symm
        refine ⟨_, hred, ?_, ?_⟩
        · simp [emit, Rev20240925.capture_screenshot, Rev20240925.create_directory, setUrl]
        · refine ⟨"screenshots/" ++ ("filters" ++ "/" ++
            ("screenshot_" ++ sanitize_title (if isNoSuchOrTimeout e2 then
                "error_activating_easy_apply_filter"
              else "unexpected_error_easy_apply_filter") ++ "_" ++
              toString s.clock ++ ".png")), ?_⟩
          simp [emit, Rev20240925.capture_screenshot, Rev20240925.create_directory, setUrl]

/-- Claim C4: apply_to_job leaves the window state framed; entered with
the single window the script maintains, it ends with exactly that
window open and focused, so any window opened during the attempt has
been closed and focus is back where it started. -/
theorem c4_window_state_framed (env : Rev20240925.AttemptEnv) (jt : String) (s : S)
    (hw : s.browser.windows = [s.browser.current]) :
    (Rev20240925.apply_to_job env jt s).1.browser.windows = [s.browser.current] ∧
    (Rev20240925.apply_to_job env jt s).1.browser.current = s.browser.current := by
  obtain ⟨s2, new, heq, _hev, hwin, hcur, _⟩ := apply_to_job_run env jt s hw
  rw [heq]
  exact ⟨hwin, hcur⟩

/-- Claim C9: the applied_jobs set only grows across an apply_to_job
call; a call on an already-applied title changes nothing (no browser
action, no events) and returns immediately; and a new title is added
to the set only when the Submit click completed, witnessed by the
submit-click event in the trace. -/
theorem c9_applied_jobs_invariant (env : Rev20240925.AttemptEnv) (jt : String) (s : S)
    (hw : s.browser.windows = [s.browser.current]) :
    (∀ x ∈ s.applied, x ∈ (Rev20240925.apply_to_job env jt s).1.applied) ∧
    (jt ∈ s.applied →
      (Rev20240925.apply_to_job env jt s).1.events = s.events ∧
      (Rev20240925.apply_to_job env jt s).1.browser = s.browser ∧
      (Rev20240925.apply_to_job env jt s).1.applied = s.applied ∧
      (Rev20240925.apply_to_job env jt s).2 = .ok ()) ∧
    (jt ∉ s.applied → jt ∈ (Rev20240925.apply_to_job env jt s).1.applied →
      Event.clickSubmit jt ∈ (Rev20240925.apply_to_job env jt s).1.events) := by
  obtain ⟨s2, new, heq, hev, _hwin, _hcur, happ, hskip, _hok, _hcnt, _himp⟩ :=
    apply_to_job_run env jt s hw
  rw [heq]
  refine ⟨?_, ?_, ?_⟩
  · intro x hx
    rw [happ]
    by_cases hm : Event.clickSubmit jt ∈ new
    · rw [if_pos hm]
      unfold pySetAdd
      by_cases hj : jt ∈ s.applied
      · rwa [if_pos hj]
      · rw [if_neg hj]
        exact List.mem_append.mpr (Or.inl hx)
    · rwa [if_neg hm]
  · intro hj
    obtain ⟨hnew, hbr, hclk, happs⟩ := hskip hj
    refine ⟨?_, hbr, happs, rfl⟩
    rw [hev, hnew]
    simp
  · intro hj hj2
    rw [happ] at hj2
    by_cases hm : Event.clickSubmit jt ∈ new
    · rw [hev]
      exact List.mem_append.mpr (Or.inr hm)
    · rw [if_neg hm] at hj2
      exact absurd hj2 hj

/-- Claim C2: within one apply_to_job call started on a clean trace the
shadow root is evaluated at most once, every shadow-root evaluation is
on the apply-button-wc element, the only selector ever looked up in a
shadow root is button.btn.btn-primary, and an attempt that reaches the
Submit click evaluated the shadow root exactly once; across a whole
main run no shadow access with any other host or selector occurs. -/
theorem c2_shadow_single_button :
    (∀ (env : Rev20240925.AttemptEnv) (jt : String) (s : S),
      s.events = [] → s.browser.windows = [s.browser.current] →
      countShadowEval (Rev20240925.apply_to_job env jt s).1.events ≤ 1 ∧
      (∀ h, Event.shadowRootEval h ∈ (Rev20240925.apply_to_job env jt s).1.events →
        h = "apply-button-wc") ∧
      (∀ css, Event.shadowFind css ∈ (Rev20240925.apply_to_job env jt s).1.events →
        css = "button.btn.btn-primary") ∧
      (Event.clickSubmit jt ∈ (Rev20240925.apply_to_job env jt s).1.events →
        countShadowEval (Rev20240925.apply_to_job env jt s).1.events = 1)) ∧
    (∀ (terms : String) (minP maxP : Int) (menv : Rev20240925.MainEnv) (s : S),
      s.browser.windows = [s.browser.current] → s.events = [] →
      (∀ h, Event.shadowRootEval h ∈ (Rev20240925.mainRun terms minP maxP menv s).1.events →
        h = "apply-button-wc") ∧
      (∀ css, Event.shadowFind css ∈ (Rev20240925.mainRun terms minP maxP menv s).1.events →
        css = "button.btn.btn-primary")) := by
  constructor
  · intro env jt s hclean hw
    obtain ⟨s2, new, heq, hev, _hwin, _hcur, _happ, _hskip, hok, hcnt, himp⟩ :=
      apply_to_job_run env jt s hw
    have hevents : (Rev20240925.apply_to_job env jt s).1.events = new := by
      rw [heq, hev, hclean]
      rfl
    rw [hevents]
    refine ⟨hcnt, ?_, ?_, himp⟩
    · intro h hm
      exact hok _ hm
    · intro css hm
      exact hok _ hm
  · intro terms minP maxP menv s hw hclean
    obtain ⟨s2, r, new, heq, hev, hok, _⟩ := mainRun_master terms minP maxP menv s hw
    have hevents : (Rev20240925.mainRun terms minP maxP menv s).1.events = new := by
      rw [heq, hev, hclean]
      rfl
    rw [hevents]
    constructor
    · intro h hm
      exact hok _ hm
    · intro css hm
      exact hok _ hm

/-- Claim C1, amended: in the final revision every run follows the
fixed order configuration load, browser launch, search submission,
filter activation, job-card loop, and performs no login step at all:
no login event ever occurs, the browser launch precedes every page
interaction, the search click precedes the filter activation, and the
filter activation precedes every job-card processing or title click. -/
theorem c1_final_revision_order (cfg : Rev20240925.IniConfig) (launch : Option PyExc)
    (env : Rev20240925.MainEnv) (s : S)
    (hclean : s.events = []) (hw : s.browser.windows = [s.browser.current]) :
    (∀ ev ∈ (Rev20240925.fullRun cfg launch env s).1.events, isLoginEvt ev = false) ∧
    precedes isLaunchEvt isPageEvt (Rev20240925.fullRun cfg launch env s).1.events = true ∧
    precedes isSearchClickEvt isFilterEvt (Rev20240925.fullRun cfg launch env s).1.events = true ∧
    precedes isFilterEvt isLoopStartEvt (Rev20240925.fullRun cfg launch env s).1.events = true := by
  rcases moduleInit_run cfg launch s with ⟨r, heqMI, hnot⟩ | ⟨ctx, heqMI⟩
  · have htr : (Rev20240925.fullRun cfg launch env s).1.events = [] := by
      rcases r with ctx | e | c
      · exact absurd rfl (hnot ctx)
      · simp [Rev20240925.fullRun, heqMI, hclean]
      · simp [Rev20240925.fullRun, heqMI, hclean]
    rw [htr]
    exact ⟨by simp, rfl, rfl, rfl⟩
  · have hredF : Rev20240925.fullRun cfg launch env s =
        Rev20240925.mainRun ctx.terms ctx.minPause ctx.maxPause env
          (emit .browserLaunch s) := by
      simp [Rev20240925.fullRun, heqMI]
    obtain ⟨s2, r, new, heqM, hev, hok, _hpause, hp1, hp2⟩ :=
      mainRun_master ctx.terms ctx.minPause ctx.maxPause env
        (emit .browserLaunch s) (by simpa [emit] using hw)
    have htr : (Rev20240925.fullRun cfg launch env s).1.events =
        Event.browserLaunch :: new := by
      rw [hredF, heqM]
      simp [hev, emit, hclean]
    rw [htr]
    refine ⟨?_, rfl, ?_, ?_⟩
    · intro ev hm
      rcases List.mem_cons.mp hm with rfl | hm
      · rfl
      · exact mainEvtOk_no_login _ (hok _ hm)
    · exact hp1
    · exact hp2

/-- Claim C7: for the final revision, every file-system effect of a run
is a directory or a PNG screenshot under the screenshots tree, and no
log file is written: every directory created lies under screenshots/,
every screenshot saved lies under screenshots/ and ends in .png, and
no log-write ever occurs. -/
theorem c7_files_only_screenshots (cfg : Rev20240925.IniConfig) (launch : Option PyExc)
    (env : Rev20240925.MainEnv) (s : S)
    (hclean : s.events = []) (hw : s.browser.windows = [s.browser.current]) :
    (∀ p, Event.dirCreate p ∈ (Rev20240925.fullRun cfg launch env s).1.events → dirOk p) ∧
    (∀ p, Event.screenshotSave p ∈ (Rev20240925.fullRun cfg launch env s).1.events →
      dirOk p ∧ pngOk p) ∧
    Event.logWrite ∉ (Rev20240925.fullRun cfg launch env s).1.events := by
  rcases moduleInit_run cfg launch s with ⟨r, heqMI, hnot⟩ | ⟨ctx, heqMI⟩
  · have htr : (Rev20240925.fullRun cfg launch env s).1.events = [] := by
      rcases r with ctx | e | c
      · exact absurd rfl (hnot ctx)
      · simp [Rev20240925.fullRun, heqMI, hclean]
      · simp [Rev20240925.fullRun, heqMI, hclean]
    rw [htr]
    exact ⟨by simp, by simp, by simp⟩
  · have hredF : Rev20240925.fullRun cfg launch env s =
        Rev20240925.mainRun ctx.terms ctx.minPause ctx.maxPause env
          (emit .browserLaunch s) := by
      simp [Rev20240925.fullRun, heqMI]
    obtain ⟨s2, r, new, heqM, hev, hok, _⟩ :=
      mainRun_master ctx.terms ctx.minPause ctx.maxPause env
        (emit .browserLaunch s) (by simpa [emit] using hw)
    have htr : (Rev20240925.fullRun cfg launch env s).1.events =
        Event.browserLaunch :: new := by
      rw [hredF, heqM]
      simp [hev, emit, hclean]
    rw [htr]
    refine ⟨?_, ?_, ?_⟩
    · intro p hm
      rcases List.mem_cons.mp hm with hbad | hm
      · cases hbad
      · exact hok _ hm
    · intro p hm
      rcases List.mem_cons.mp hm with hbad | hm
      · cases hbad
      · exact hok _ hm
    · intro hm
      rcases List.mem_cons.mp hm with hbad | hm
      · cases hbad
      · exact (hok _ hm).elim

/-- Claim C6, amended: revisions that upload the résumé send
ResumePath to the file input before the Submit click (shown for the
20240920204534 revision: in every run no submit click precedes the
résumé upload, and every upload sends exactly ResumePath), while the
final revision's apply_to_job performs no résumé upload at all. -/
theorem c6_resume_upload_amended :
    (∀ (resumePath jobLink : String) (env : Rev20240920.ApplyEnv) (s : S),
      s.events = [] →
      precedes isUploadEvt isSubmitEvt
        (Rev20240920.apply_to_job resumePath jobLink env s).1.events = true ∧
      (∀ p, Event.uploadResume p ∈ (Rev20240920.apply_to_job resumePath jobLink env s).1.events →
        p = resumePath)) ∧
    (∀ (env : Rev20240925.AttemptEnv) (jt : String) (s : S),
      s.events = [] → s.browser.windows = [s.browser.current] →
      ∀ p, Event.uploadResume p ∉ (Rev20240925.apply_to_job env jt s).1.events) := by
  constructor
  · intro resumePath jobLink env s hclean
    obtain ⟨s2, new, heq, hev, hprec, hupl⟩ := rev0_apply_run resumePath jobLink env s
    have htr : (Rev20240920.apply_to_job resumePath jobLink env s).1.events = new := by
      rw [heq, hev, hclean]
      rfl
    rw [htr]
    exact ⟨hprec, hupl⟩
  · intro env jt s hclean hw p hm
    obtain ⟨s2, new, heq, hev, _hwin, _hcur, _happ, _hskip, hok, _⟩ :=
      apply_to_job_run env jt s hw
    have htr : (Rev20240925.apply_to_job env jt s).1.events = new := by
      rw [heq, hev, hclean]
      rfl
    rw [htr] at hm
    exact (hok _ hm).elim

/-- Claim C10: a missing or non-integer pause-duration key makes the
module prologue exit with status 1 without launching the browser, and
when both keys parse with MIN_PAUSE at most MAX_PAUSE, every pause
between two job applications lies between those bounds inclusive. -/
theorem c10_pause_bounds_and_config_exit :
    (∀ (cfg : Rev20240925.IniConfig) (launch : Option PyExc) (s : S) (t em pw : String),
      cfg.searchTerms = some t → cfg.email = some em → cfg.password = some pw →
      cfg.pauseMin = none →
      Rev20240925.moduleInit cfg launch s = (s, .exited 1)) ∧
    (∀ (cfg : Rev20240925.IniConfig) (launch : Option PyExc) (s : S) (t em pw v : String),
      cfg.searchTerms = some t → cfg.email = some em → cfg.password = some pw →
      cfg.pauseMin = some v → parsePyInt v = none →
      Rev20240925.moduleInit cfg launch s = (s, .exited 1)) ∧
    (∀ (cfg : Rev20240925.IniConfig) (launch : Option PyExc) (s : S) (t em pw v : String)
      (mn : Int),
      cfg.searchTerms = some t → cfg.email = some em → cfg.password = some pw →
      cfg.pauseMin = some v → parsePyInt v = some mn → cfg.pauseMax = none →
      Rev20240925.moduleInit cfg launch s = (s, .exited 1)) ∧
    (∀ (cfg : Rev20240925.IniConfig) (launch : Option PyExc) (s : S) (t em pw v w : String)
      (mn : Int),
      cfg.searchTerms = some t → cfg.email = some em → cfg.password = some pw →
      cfg.pauseMin = some v → parsePyInt v = some mn → cfg.pauseMax = some w →
      parsePyInt w = none →
      Rev20240925.moduleInit cfg launch s = (s, .exited 1)) ∧
    (∀ (cfg : Rev20240925.IniConfig) (env : Rev20240925.MainEnv) (s : S)
      (t em pw v w : String) (mn mx : Int),
      cfg.searchTerms = some t → cfg.email = some em → cfg.password = some pw →
      cfg.pauseMin = some v → parsePyInt v = some mn → cfg.pauseMax = some w →
      parsePyInt w = some mx → mn ≤ mx →
      s.events = [] → s.browser.windows = [s.browser.current] →
      ∀ d, Event.pauseBetween d ∈ (Rev20240925.fullRun cfg none env s).1.events →
        mn ≤ d ∧ d ≤ mx) := by
  refine ⟨?_, ?_, ?_, ?_, ?_⟩
  · intro cfg launch s t em pw h1 h2 h3 h4
    simp [Rev20240925.moduleInit, h1, h2, h3, h4]
  · intro cfg launch s t em pw v h1 h2 h3 h4 h5
    simp [Rev20240925.moduleInit, h1, h2, h3, h4, h5]
  · intro cfg launch s t em pw v mn h1 h2 h3 h4 h5 h6
    simp [Rev20240925.moduleInit, h1, h2, h3, h4, h5, h6]
  · intro cfg launch s t em pw v w mn h1 h2 h3 h4 h5 h6 h7
    simp [Rev20240925.moduleInit, h1, h2, h3, h4, h5, h6, h7]
  · intro cfg env s t em pw v w mn mx h1 h2 h3 h4 h5 h6 h7 hle hclean hw d hm
    have heqMI : Rev20240925.moduleInit cfg none s =
        (emit .browserLaunch s, .ok ⟨t, mn, mx⟩) := by
      simp [Rev20240925.moduleInit, h1, h2, h3, h4, h5, h6, h7]
    have hredF : Rev20240925.fullRun cfg none env s =
        Rev20240925.mainRun t mn mx env (emit .browserLaunch s) := by
      simp [Rev20240925.fullRun, heqMI]
    obtain ⟨s2, r, new, heqM, hev, _hok, hpause, _⟩ :=
      mainRun_master t mn mx env (emit .browserLaunch s) (by simpa [emit] using hw)
    have htr : (Rev20240925.fullRun cfg none env s).1.events =
        Event.browserLaunch :: new := by
      rw [hredF, heqM]
      simp [hev, emit, hclean]
    rw [htr] at hm
    rcases List.mem_cons.mp hm with hbad | hm
    · cases hbad
    · obtain ⟨rr, rfl⟩ := hpause d hm
      exact randint_bounds mn mx rr hle

/-- Claim C1, counterexample: a complete successful run of the final
revision activates the search filter yet contains no login event at
all, refuting the claim that every revision performs a login step
before the filter is activated. -/
theorem c1_counterexample :
    Event.filterActivated ∈ (Rev20240925.fullRun cfgOk none mainEnvOk s0).1.events ∧
    (∀ ev ∈ (Rev20240925.fullRun cfgOk none mainEnvOk s0).1.events,
      isLoginEvt ev = false) ∧
    (Rev20240925.fullRun cfgOk none mainEnvOk s0).2 = .ok () := by
  decide

/-- Claim C6, counterexample: a successful job application attempt of
the final revision clicks Submit without any résumé upload, refuting
the claim that every successful attempt sends ResumePath to a
file-upload input before the Submit click. -/
theorem c6_counterexample :
    Event.clickSubmit "Senior Frontend Developer" ∈
      (Rev20240925.apply_to_job attemptEnvOk "Senior Frontend Developer" s0).1.events ∧
    (∀ ev ∈ (Rev20240925.apply_to_job attemptEnvOk "Senior Frontend Developer" s0).1.events,
      isUploadEvt ev = false) ∧
    (Rev20240925.apply_to_job attemptEnvOk "Senior Frontend Developer" s0).2 = .ok () := by
  decide

theorem c1_witness :
    (∀ ev ∈ (Rev20240925.fullRun cfgOk none mainEnvOk s0).1.events,
      isLoginEvt ev = false) ∧
    precedes isLaunchEvt isPageEvt (Rev20240925.fullRun cfgOk none mainEnvOk s0).1.events = true ∧
    precedes isSearchClickEvt isFilterEvt
      (Rev20240925.fullRun cfgOk none mainEnvOk s0).1.events = true ∧
    precedes isFilterEvt isLoopStartEvt
      (Rev20240925.fullRun cfgOk none mainEnvOk s0).1.events = true :=
  c1_final_revision_order cfgOk none mainEnvOk s0 rfl rfl

theorem c2_witness :
    (countShadowEval (Rev20240925.apply_to_job attemptEnvOk "Dev" s0).1.events ≤ 1 ∧
     (∀ h, Event.shadowRootEval h ∈ (Rev20240925.apply_to_job attemptEnvOk "Dev" s0).1.events →
       h = "apply-button-wc") ∧
     (∀ css, Event.shadowFind css ∈ (Rev20240925.apply_to_job attemptEnvOk "Dev" s0).1.events →
       css = "button.btn.btn-primary") ∧
     (Event.clickSubmit "Dev" ∈ (Rev20240925.apply_to_job attemptEnvOk "Dev" s0).1.events →
       countShadowEval (Rev20240925.apply_to_job attemptEnvOk "Dev" s0).1.events = 1)) ∧
    ((∀ h, Event.shadowRootEval h ∈ (Rev20240925.mainRun "angular" 2 3 mainEnvOk s0).1.events →
       h = "apply-button-wc") ∧
     (∀ css, Event.shadowFind css ∈ (Rev20240925.mainRun "angular" 2 3 mainEnvOk s0).1.events →
       css = "button.btn.btn-primary")) :=
  ⟨c2_shadow_single_button.1 attemptEnvOk "Dev" s0 rfl rfl,
   c2_shadow_single_button.2 "angular" 2 3 mainEnvOk s0 rfl rfl⟩

theorem c4_witness :
    (Rev20240925.apply_to_job attemptEnvWin "Dev" s0).1.browser.windows = [s0.browser.current] ∧
    (Rev20240925.apply_to_job attemptEnvWin "Dev" s0).1.browser.current = s0.browser.current :=
  c4_window_state_framed attemptEnvWin "Dev" s0 rfl

theorem c5_witness :
    ∃ s2, Rev20240925.activate_easy_apply_filter "angular" filterEnvFail s0 = (s2, .exited 1) ∧
      Event.quitDriver ∈ s2.events ∧ (∃ p, Event.screenshotSave p ∈ s2.events) :=
  (c5_filter_postcondition "angular" filterEnvFail s0).2 .timeoutExc (by decide) rfl
    (Or.inr rfl)

theorem c6_witness :
    (precedes isUploadEvt isSubmitEvt
      (Rev20240920.apply_to_job "C:/resume.pdf" "https://example.com/job" rev0EnvOk s0).1.events
        = true ∧
     (∀ p, Event.uploadResume p ∈
        (Rev20240920.apply_to_job "C:/resume.pdf" "https://example.com/job" rev0EnvOk s0).1.events →
        p = "C:/resume.pdf")) ∧
    (∀ p, Event.uploadResume p ∉ (Rev20240925.apply_to_job attemptEnvOk "Dev" s0).1.events) :=
  ⟨c6_resume_upload_amended.1 "C:/resume.pdf" "https://example.com/job" rev0EnvOk s0 rfl,
   c6_resume_upload_amended.2 attemptEnvOk "Dev" s0 rfl rfl⟩

theorem c7_witness :
    (∀ p, Event.dirCreate p ∈ (Rev20240925.fullRun cfgOk none mainEnvOk s0).1.events →
      dirOk p) ∧
    (∀ p, Event.screenshotSave p ∈ (Rev20240925.fullRun cfgOk none mainEnvOk s0).1.events →
      dirOk p ∧ pngOk p) ∧
    Event.logWrite ∉ (Rev20240925.fullRun cfgOk none mainEnvOk s0).1.events :=
  c7_files_only_screenshots cfgOk none mainEnvOk s0 rfl rfl

theorem c8_witness : pyIsAlnum 'a' = true ∨ 'a' = '_' :=
  c8_sanitize_title_range "a b" 'a' (by decide)

theorem c9_witness :
    (∀ x ∈ s0.applied, x ∈ (Rev20240925.apply_to_job attemptEnvOk "Dev" s0).1.applied) ∧
    ("Dev" ∈ s0.applied →
      (Rev20240925.apply_to_job attemptEnvOk "Dev" s0).1.events = s0.events ∧
      (Rev20240925.apply_to_job attemptEnvOk "Dev" s0).1.browser = s0.browser ∧
      (Rev20240925.apply_to_job attemptEnvOk "Dev" s0).1.applied = s0.applied ∧
      (Rev20240925.apply_to_job attemptEnvOk "Dev" s0).2 = .ok ()) ∧
    ("Dev" ∉ s0.applied → "Dev" ∈ (Rev20240925.apply_to_job attemptEnvOk "Dev" s0).1.applied →
      Event.clickSubmit "Dev" ∈ (Rev20240925.apply_to_job attemptEnvOk "Dev" s0).1.events) :=
  c9_applied_jobs_invariant attemptEnvOk "Dev" s0 rfl

theorem c10_witness :
    Rev20240925.moduleInit cfgNoMin none s0 = (s0, .exited 1) ∧
    Rev20240925.moduleInit cfgBadMax none s0 = (s0, .exited 1) ∧
    (∀ d, Event.pauseBetween d ∈ (Rev20240925.fullRun cfgOk none mainEnvOk s0).1.events →
      2 ≤ d ∧ d ≤ 3) :=
  ⟨c10_pause_bounds_and_config_exit.1 cfgNoMin none s0 "angular" "user@example.com"
      "hunter2" rfl rfl rfl rfl,
   c10_pause_bounds_and_config_exit.2.2.2.1 cfgBadMax none s0 "angular" "user@example.com"
      "hunter2" "2" "ten" 2 rfl rfl rfl rfl (by decide) rfl (by decide),
   c10_pause_bounds_and_config_exit.2.2.2.2 cfgOk mainEnvOk s0 "angular" "user@example.com"
      "hunter2" "2" "3" 2 3 rfl rfl rfl rfl (by decide) rfl (by decide) (by decide) rfl rfl⟩
